import Mathlib

/-! # Mail archive console: the browser script `www/index.js`

A shallow embedding of the event-driven script.  The script's global variables,
the parts of the document it writes, and the browser facilities it drives
(pending timers, AJAX requests in flight, web sockets, local storage, the
JavaScript console) are fields of one `State`; every function of the script is
a function on `State`.  JavaScript `undefined` arguments are `Option`s, an
uncaught exception is the `threw` field of an `Outcome`.  What the script calls
but does not define (`JSON.parse`, `toLocaleString`, the selector parsing of
jQuery, the rendering of a row) is a parameter: `Platform` and `Library`.
-/

namespace MailArchive

/-! ## Browser facilities -/

/-- Functions of the script that are handed to `setTimeout` or `setInterval`.
`forceRefresh` is the anonymous function of the one-minute interval. -/
inductive Callback where
  | hideMessage
  | connectToWS
  | handleResize
  | checkIfRefreshNeeded
  | forceRefresh
  deriving DecidableEq, Repr

/-- A pending timer: the id returned by `setTimeout`/`setInterval`, the function
to call, the delay in milliseconds, and whether it repeats (`setInterval`). -/
structure Timer where
  id : Nat
  callback : Callback
  delay : Nat
  repeating : Bool
  deriving DecidableEq, Repr

/-- An AJAX request handed to `$.ajax`: the `type` setting (GET when absent),
the `url`, the `dataType` setting and the `q` entry of `data`, when present. -/
structure Request where
  method : String
  url : String
  dataType : Option String
  q : Option String
  deriving DecidableEq, Repr

/-- The `readyState` of a web socket. -/
inductive ReadyState where
  | connecting
  | opened
  | closing
  | closed
  deriving DecidableEq, Repr

/-- A web socket created by `new WebSocket(url)`. -/
structure Socket where
  url : String
  readyState : ReadyState
  deriving DecidableEq, Repr

/-- A value produced by `JSON.parse`.  A number is kept as a numeral denoting it;
the fields of an object are listed in order, each key once. -/
inductive JsValue where
  | null
  | bool (b : Bool)
  | num (numeral : String)
  | str (s : String)
  | arr (items : List JsValue)
  | obj (fields : List (String × JsValue))

/-- The built-in functions the channel handler calls.  `jsonParse` is `JSON.parse`:
a value, or the message of the error it throws on text that is not JSON.
`toLocaleString` is the method of that name on a value that is neither `null`
nor `undefined`: a text, or the message of the error thrown. -/
structure Platform where
  jsonParse : String → Except String JsValue
  toLocaleString : JsValue → Except String String

/-- A line of the JavaScript console: a text or a logged value. -/
inductive ConsoleEntry where
  | text (t : String)
  | value (v : JsValue)

/-! ## The document -/

/-- The `#message` element: its text, background colour and `display` style. -/
structure Notice where
  innerText : String
  backgroundColor : String
  display : String
  deriving DecidableEq, Repr

/-- A message record of the backend API.  `sender` and `recipient` are the
fields `from` and `to`. -/
structure Message where
  uuid : String
  received : String
  size : Nat
  sender : String
  recipient : String
  subject : String
  spam_score : String
  status : String
  source_ip : String
  plain_text : Bool
  html : Bool
  deriving DecidableEq, Repr

/-- A rendered row of `#message_list`: the message it shows and whether it
carries the class `active`. -/
structure Row where
  message : Message
  active : Bool
  deriving DecidableEq, Repr

/-- The blocks `rebuildCustomCSS` can put into the `#customcss` style tag. -/
inductive CssBlock where
  | hideSpamReporting
  | hideLogs
  | subjectWidth (px : Nat)
  deriving DecidableEq, Repr

/-- The source tabs of `#message_header .nav-tabs`, by their class. -/
inductive Tab where
  | plaintext
  | html
  | source
  | log
  deriving DecidableEq, Repr

/-- What `#message_contents` holds: nothing yet, an iframe on a URL, or a
pre-formatted text. -/
inductive Contents where
  | empty
  | iframe (src : String)
  | pre (text : String)
  deriving DecidableEq, Repr

/-- Event handlers the script registers on the document. -/
inductive Registration where
  | resizerMousedown
  | resizerMouseup
  | documentMousemove
  | windowResize
  | searchInputInput
  | messageListClick
  | documentKeydown
  | navLinkClick
  | mailDownloadClick
  | mailLearnHamClick
  | mailLearnSpamClick
  | windowHashchange
  deriving DecidableEq, Repr

/-! ## The state -/

/-- The script's global variables followed by the browser and document state
it reads and writes. -/
structure State where
  /-- The global `messageTimer`; `none` is `null`. -/
  messageTimer : Option Nat
  UIDisableSpamReporting : Bool
  UIDisableLogs : Bool
  UISubjectWidth : Nat
  selectedMessage : Option Message
  shouldRefresh : Bool
  shouldSearch : Bool
  loading : Bool
  /-- Pending timeouts and intervals. -/
  timers : List Timer
  /-- The id the next `setTimeout`/`setInterval` returns. -/
  nextTimerId : Nat
  console : List ConsoleEntry
  /-- AJAX requests sent and not yet completed. -/
  requests : List Request
  /-- Web sockets created so far, oldest first. -/
  sockets : List Socket
  /-- The global `localStorage` (`none` when the browser has none): its keys and values. -/
  localStorage : Option (List (String × String))
  /-- The value `document.location.host`. -/
  host : String
  /-- The `uuid` parameter of `window.location.hash`, when it has one. -/
  hashUuid : Option String
  notice : Notice
  /-- The value of `#searchInput`. -/
  searchInput : String
  /-- The height of `#message_list_container`. -/
  messageListContainerHeight : Nat
  customcss : List CssBlock
  navbarBrand : String
  /-- The text of `#message_count`. -/
  messageCount : String
  /-- The rows of `#message_list tbody`. -/
  messageList : List Row
  /-- The message whose fields `#message_header` shows. -/
  header : Option Message
  activeTab : Option Tab
  plaintextDisabled : Bool
  htmlDisabled : Bool
  contents : Contents
  registrations : List Registration

/-- The state right after the script has been loaded: every global at its
initialiser, nothing pending, nothing rendered.  The browser side is an example
environment: the host `localhost`, an empty local storage, a list container
200 pixels high, no `uuid` in the location hash. -/
def State.init : State where
  messageTimer := none
  UIDisableSpamReporting := false
  UIDisableLogs := false
  UISubjectWidth := 0
  selectedMessage := none
  shouldRefresh := false
  shouldSearch := false
  loading := false
  timers := []
  nextTimerId := 1
  console := []
  requests := []
  sockets := []
  localStorage := some []
  host := "localhost"
  hashUuid := none
  notice := { innerText := "", backgroundColor := "", display := "none" }
  searchInput := ""
  messageListContainerHeight := 200
  customcss := []
  navbarBrand := ""
  messageCount := ""
  messageList := []
  header := none
  activeTab := some Tab.plaintext
  plaintextDisabled := false
  htmlDisabled := false
  contents := Contents.empty
  registrations := []

/-- The result of running a handler: the state it leaves and the message of
the exception it ended with, if it did not return normally. -/
structure Outcome where
  state : State
  threw : Option String

/-! ## Timers -/

/-- The call `setTimeout(f, delay)`: the new timer's id and the state holding it.
Ids are handed out in increasing order, as browsers do. -/
def setTimeout (f : Callback) (delay : Nat) (s : State) : Nat × State :=
  (s.nextTimerId,
   { s with timers := s.timers ++ [{ id := s.nextTimerId, callback := f, delay := delay, repeating := false }],
            nextTimerId := s.nextTimerId + 1 })

/-- The call `setInterval(f, delay)`. -/
def setInterval (f : Callback) (delay : Nat) (s : State) : Nat × State :=
  (s.nextTimerId,
   { s with timers := s.timers ++ [{ id := s.nextTimerId, callback := f, delay := delay, repeating := true }],
            nextTimerId := s.nextTimerId + 1 })

/-- The call `clearTimeout(id)`; `clearTimeout(null)` does nothing. -/
def clearTimeout (id : Option Nat) (s : State) : State :=
  match id with
  | none => s
  | some i => { s with timers := s.timers.filter (fun t => t.id != i) }

/-- The pending timers that will call `hideMessage`. -/
def hideTimers (s : State) : List Timer :=
  s.timers.filter (fun t => t.callback == Callback.hideMessage)

/-- The pending timers that will call `connectToWS`. -/
def reconnectTimers (s : State) : List Timer :=
  s.timers.filter (fun t => t.callback == Callback.connectToWS)

/-! ## Notices (lines 9-60) -/

/-- Hide the message on screen. -/
def hideMessage (s : State) : State :=
  let s1 := { s with notice := { s.notice with display := "none" } }
  let s2 := clearTimeout s1.messageTimer s1
  { s2 with messageTimer := none }

/-- The function `displayMessage(message, color, timeout)` of line 38, the
declaration in force: a later function declaration of a name replaces an
earlier one.  An argument that is `undefined` (or not passed) is `none`. -/
def displayMessage (message : String) (color : Option String) (timeout : Option Bool)
    (s : State) : State :=
  let color := match color with
    | none => "cadetblue"
    | some c => c
  let s1 := { s with console := s.console ++ [ConsoleEntry.text message] }
  let s2 := { s1 with notice := { innerText := message, backgroundColor := color, display := "block" } }
  let s3 := if s2.messageTimer.isSome then clearTimeout s2.messageTimer s2 else s2
  if timeout = some true then
    let r := setTimeout Callback.hideMessage 5000 s3
    { r.2 with messageTimer := some r.1 }
  else s3

/-- The body of the one-parameter declaration `displayMessage(message)` of
line 23, as written.  The declaration of line 38 replaces it, so no call
reaches this body. -/
def displayMessageStandard (message : String) (s : State) : State :=
  displayMessage message (some "cadetblue") (some true) s

/-- Display a sucessful message with green color. -/
def displaySuccess (message : String) (s : State) : State :=
  displayMessage message (some "green") (some true) s

/-- Display an error message with red color.  The function has one parameter:
further arguments of a call are ignored. -/
def displayError (message : String) (s : State) : State :=
  displayMessage message (some "red") (some true) s

/-! ## Configuration (lines 62-140) -/

/-- Build custom CSS based on configuration. -/
def rebuildCustomCSS (s : State) : State :=
  let cssConfig : List CssBlock := []
  let cssConfig := if s.UIDisableSpamReporting then cssConfig ++ [CssBlock.hideSpamReporting] else cssConfig
  let cssConfig := if s.UIDisableLogs then cssConfig ++ [CssBlock.hideLogs] else cssConfig
  let cssConfig := if s.UISubjectWidth != 0 then cssConfig ++ [CssBlock.subjectWidth s.UISubjectWidth] else cssConfig
  { s with customcss := cssConfig }

/-- The body of a response of `/api/config`. -/
structure ConfigResponse where
  status : Option String
  error : String
  disable_spam_reporting : Bool
  disable_logs : Bool
  custom_brand : String
  message_count : JsValue

/-- Load configuration from API: the sending of the request. -/
def loadConfig (s : State) : State :=
  { s with requests := s.requests ++
      [{ method := "GET", url := "/api/config", dataType := some "json", q := none }] }

/-- The `.done` callback of `loadConfig`. -/
def loadConfigDone (P : Platform) (data : ConfigResponse) (s : State) : Outcome :=
  if data.status = some "error" then
    { state := displayError ("Unable to load configuration: " ++ data.error) s, threw := none }
  else
    let s1 := { s with UIDisableSpamReporting := data.disable_spam_reporting }
    let s2 := { s1 with UIDisableLogs := data.disable_logs }
    let s3 := if data.custom_brand != "" then { s2 with navbarBrand := data.custom_brand } else s2
    match P.toLocaleString data.message_count with
    | Except.error e => { state := s3, threw := some e }
    | Except.ok text => { state := rebuildCustomCSS { s3 with messageCount := text }, threw := none }

/-- The `.fail` callback of `loadConfig`. -/
def loadConfigFail (textStatus : String) (s : State) : State :=
  displayError ("Unable to load configuration: " ++ textStatus) s

/-! ## The message list loader (lines 299-411) -/

/-- What the success callback of the list fetch takes from the libraries of the page.
`selectorError` is the call `$(selector)` of jQuery: the message of the error it
throws on a selector it cannot parse, `none` when it returns.  `renderError` is
the preparation and rendering of one row (lines 360-366: `moment`,
`JSON.stringify`, `Mustache.render` with the template of the page): the message
of the error thrown, `none` when the row is rendered. -/
structure Library where
  selectorError : String → Option String
  renderError : Message → Option String

/-- The body of a response of `/api/message_log`: `status` (absent on success),
`error` and `messages`; a `messages` of `none` is an absent or `null` list. -/
structure ListResponse where
  status : Option String
  error : String
  messages : Option (List Message)
  deriving DecidableEq, Repr

/-- The effect of `$("#"+uuid).addClass("active")` on the rendered rows: the first row
with that id gets the class. -/
def addClassActive (uuid : String) : List Row → List Row
  | [] => []
  | r :: rs =>
    if r.message.uuid = uuid then { r with active := true } :: rs
    else r :: addClassActive uuid rs

/-- This function loads the list of messages from the API: the synchronous part
of `loadMessageList`, up to and including the sending of the request. -/
def loadMessageList (s : State) : State :=
  if s.loading then s
  else
    let s1 := { s with loading := true }
    let s2 := { s1 with shouldRefresh := false, shouldSearch := false }
    let query := s2.searchInput
    let data := if query != "" then some query else none
    { s2 with requests := s2.requests ++
        [{ method := "GET", url := "/api/message_log", dataType := some "json", q := data }] }

/-- The loop of lines 359-367 over the messages still to render: each row is
appended to the list body; an exception ends the loop and the callback. -/
def appendRows (L : Library) : List Message → State → Outcome
  | [], s => { state := s, threw := none }
  | message :: rest, s =>
    match L.renderError message with
    | some e => { state := s, threw := some e }
    | none =>
      appendRows L rest { s with messageList := s.messageList ++ [{ message := message, active := false }] }

/-- Lines 369-374: if a message was selected, its row is activated; the selector
`"#"+selectedMessage.uuid` is handed to jQuery, which throws on a selector it
cannot parse.  Scrolling is not part of the state. -/
def activateSelected (L : Library) (s : State) : Outcome :=
  match s.selectedMessage with
  | none => { state := s, threw := none }
  | some sel =>
    match L.selectorError ("#" ++ sel.uuid) with
    | some e => { state := s, threw := some e }
    | none =>
      { state := { s with messageList := addClassActive sel.uuid s.messageList }, threw := none }

/-- The `.done` callback of `loadMessageList`.  On a response without the status
"error" the list body is emptied and the rows are rendered and activated; an
exception in that part ends the callback before `loading` is reset. -/
def loadMessageListDone (L : Library) (data : ListResponse) (s : State) : Outcome :=
  if data.status = some "error" then
    let s1 := displayError ("Unable to pull messages: " ++ data.error) s
    let s2 := { s1 with loading := false }
    { state := if s2.shouldSearch then loadMessageList s2 else s2, threw := none }
  else
    let s1 := { s with messageList := [] }
    match data.messages with
    | none => { state := s1, threw := some "TypeError: data.messages has no properties" }
    | some messages =>
      let rendered := appendRows L messages s1
      match rendered.threw with
      | some e => { state := rendered.state, threw := some e }
      | none =>
        let activated := activateSelected L rendered.state
        match activated.threw with
        | some e => { state := activated.state, threw := some e }
        | none =>
          let s3 := { activated.state with loading := false }
          { state := if s3.shouldSearch then loadMessageList s3 else s3, threw := none }

/-- The `.fail` callback of `loadMessageList`. -/
def loadMessageListFail (textStatus : String) (s : State) : State :=
  let s1 := displayError ("Unable to pull messages: " ++ textStatus) s
  let s2 := { s1 with loading := false }
  if s2.shouldSearch then loadMessageList s2 else s2

/-- When the search box has received input, we need to re-load the messages. -/
def handleSearchInput (s : State) : State :=
  if s.loading then { s with shouldSearch := true }
  else loadMessageList s

/-- Every 5 seconds, we check to see if we need to refresh the message list. -/
def checkIfRefreshNeeded (s : State) : State :=
  if s.shouldRefresh then loadMessageList s else s

/-- The anonymous function of the one-minute interval (line 720). -/
def forceRefresh (s : State) : State :=
  { s with shouldRefresh := true }

/-! ## The channel (lines 413-463) -/

/-- The method `ws.close()` on the socket numbered `ws`: a socket that is not
yet closing or closed starts closing. -/
def wsClose (ws : Nat) (s : State) : State :=
  match s.sockets[ws]? with
  | none => s
  | some k =>
    if k.readyState = ReadyState.closing ∨ k.readyState = ReadyState.closed then s
    else { s with sockets := s.sockets.set ws { k with readyState := ReadyState.closing } }

/-- The synchronous part of `connectToWS`: the notice and the new socket.  The four
handlers it installs on the socket are the functions below. -/
def connectToWS (s : State) : State :=
  let s1 := displayMessage "Connecting to websockets daemon" none none s
  { s1 with sockets := s1.sockets ++
      [{ url := "ws://" ++ s1.host ++ "/ws", readyState := ReadyState.connecting }] }

/-- The handler `ws.onerror` of the socket numbered `ws`; `err` is the text of the event. -/
def onerror (ws : Nat) (err : String) (s : State) : State :=
  wsClose ws (displayError err s)

/-- The handler `ws.onopen`. -/
def onopen (s : State) : State :=
  displaySuccess "Connected to websockets daemon" s

/-- The handler `ws.onclose`. -/
def onclose (s : State) : State :=
  let s1 := displayMessage "Websockets connection closed" (some "cadetblue") (some false) s
  (setTimeout Callback.connectToWS 5000 s1).2

/-- The property read `v.name` on a parsed value that is not `null`: only an object
has the properties `type` and `msg`; `none` is `undefined`. -/
def JsValue.getProp (name : String) : JsValue → Option JsValue
  | JsValue.obj fields => fields.lookup name
  | _ => none

/-- The call `v.toLocaleString()` where `v` is the result of a property read:
it throws on `undefined` and `null`. -/
def callToLocaleString (P : Platform) : Option JsValue → Except String String
  | none => Except.error "TypeError: undefined has no properties"
  | some JsValue.null => Except.error "TypeError: null has no properties"
  | some v => P.toLocaleString v

/-- The handler `ws.onmessage`, on the payload `event.data`. -/
def onmessage (P : Platform) (data : String) (s : State) : Outcome :=
  match P.jsonParse data with
  | Except.error e => { state := s, threw := some e }
  | Except.ok JsValue.null =>
    { state := displayError ("Received weird response: " ++ data) s, threw := none }
  | Except.ok message =>
    match message.getProp "type" with
    | some (JsValue.str t) =>
      if t = "messageStatusesUpdated" then
        { state := { s with shouldRefresh := true }, threw := none }
      else if t = "receivedNewMessage" then
        { state := { s with shouldRefresh := true }, threw := none }
      else if t = "updateMessageCount" then
        match callToLocaleString P (message.getProp "msg") with
        | Except.error e => { state := s, threw := some e }
        | Except.ok text =>
          let s1 := { s with messageCount := text }
          { state := { s1 with console := s1.console ++ [ConsoleEntry.value message] }, threw := none }
      else
        { state := { s with console := s.console ++ [ConsoleEntry.value message] }, threw := none }
    | _ => { state := { s with console := s.console ++ [ConsoleEntry.value message] }, threw := none }

/-! ## The selected message (lines 465-692) -/

/-- The body of a response of `/api/message/UUID`; a `message` of `none` is `null`. -/
structure MessageResponse where
  status : Option String
  error : String
  message : Option Message
  deriving DecidableEq, Repr

/-- The body of a response of `/api/message/UUID.ext`, requested without a
`dataType`: a text, or a parsed object with its `status` and `error`. -/
inductive SourceResponse where
  | text (body : String)
  | object (status : Option String) (error : String)
  deriving DecidableEq, Repr

/-- The body of a response of the `learn_ham` and `learn_spam` requests. -/
structure LearnResponse where
  status : Option String
  error : String
  deriving DecidableEq, Repr

/-- The extension `handleSourceSelection` determines from the class of the tab. -/
def extensionOf (selection : Tab) : String :=
  if selection = Tab.html then ".html"
  else if selection = Tab.source then ".eml"
  else if selection = Tab.log then ".log"
  else ".txt"

/-- When a source tab is selected, we need to grab the source from the API.
The argument is the tab the handler runs on (`this`). -/
def handleSourceSelection (selection : Tab) (s : State) : State :=
  match s.selectedMessage with
  | none => s
  | some m =>
    let s1 := { s with activeTab := some selection }
    let extension := extensionOf selection
    if extension = ".html" then
      { s1 with contents := Contents.iframe ("/api/message/" ++ m.uuid ++ extension) }
    else
      { s1 with requests := s1.requests ++
          [{ method := "GET", url := "/api/message/" ++ m.uuid ++ extension, dataType := none,
             q := none }] }

/-- The `.done` callback of the request of `handleSourceSelection`. -/
def handleSourceSelectionDone (data : SourceResponse) (s : State) : State :=
  match data with
  | SourceResponse.object (some _) error => displayError ("Unable to pull message: " ++ error) s
  | SourceResponse.object none _ => { s with contents := Contents.pre "[object Object]" }
  | SourceResponse.text body => { s with contents := Contents.pre body }

/-- The `.fail` callback of the request of `handleSourceSelection`. -/
def handleSourceSelectionFail (textStatus : String) (s : State) : State :=
  displayError ("Unable to pull message: " ++ textStatus) s

/-- The property `disabled` of the active tab; only the plain text and HTML tabs are
ever disabled, and without an active tab the read is `undefined`. -/
def activeDisabled (s : State) : Bool :=
  match s.activeTab with
  | some Tab.plaintext => s.plaintextDisabled
  | some Tab.html => s.htmlDisabled
  | _ => false

/-- The call `.click()` on the active tab: its click handler runs, if there is an
active tab. -/
def clickActive (s : State) : State :=
  match s.activeTab with
  | none => s
  | some t => handleSourceSelection t s

/-- This function is used to update the currently selected message view.  It is
called with a message selected. -/
def updateSelectedMessage (s : State) : State :=
  match s.selectedMessage with
  | none => s
  | some m =>
    let s1 := { s with header := some m }
    if !m.plain_text then
      let s2 := { s1 with plaintextDisabled := true }
      let s3 := { s2 with htmlDisabled := false }
      if activeDisabled s3 then handleSourceSelection Tab.html s3 else clickActive s3
    else
      let s2 := { s1 with htmlDisabled := !m.html }
      let s3 := { s2 with plaintextDisabled := false }
      if activeDisabled s3 then handleSourceSelection Tab.plaintext s3 else clickActive s3

/-- Load a message by its UUID: the check and the sending of the request. -/
def loadMessage (UUID : String) (s : State) : State :=
  match s.selectedMessage with
  | some m =>
    if m.uuid = UUID then s
    else { s with requests := s.requests ++
      [{ method := "GET", url := "/api/message/" ++ UUID, dataType := some "json", q := none }] }
  | none =>
    { s with requests := s.requests ++
      [{ method := "GET", url := "/api/message/" ++ UUID, dataType := some "json", q := none }] }

/-- The `.done` callback of `loadMessage`. -/
def loadMessageDone (data : MessageResponse) (s : State) : State :=
  if data.status = some "error" then
    displayError ("Unable to pull message: " ++ data.error) s
  else
    let s1 := { s with selectedMessage := data.message }
    match s1.selectedMessage with
    | none => s1
    | some m =>
      let s2 := updateSelectedMessage s1
      let s3 := { s2 with messageList := s2.messageList.map (fun (r : Row) => { r with active := false }) }
      { s3 with messageList := addClassActive m.uuid s3.messageList }

/-- The `.fail` callback of `loadMessage`. -/
def loadMessageFail (textStatus : String) (s : State) : State :=
  displayError ("Unable to pull message: " ++ textStatus) s

/-- When the learn ham spam reporting button is clicked, this function is called;
`r` is the answer of the `confirm` dialog. -/
def learnHam (r : Bool) (s : State) : State :=
  match s.selectedMessage with
  | none => displayMessage "Select a message first." none none s
  | some m =>
    if r != true then s
    else { s with requests := s.requests ++
      [{ method := "PUT", url := "/api/message/" ++ m.uuid ++ "/learn_ham", dataType := some "json",
         q := none }] }

/-- The `.done` callback of `learnHam`. -/
def learnHamDone (data : LearnResponse) (s : State) : State :=
  if data.status = some "error" then displayError ("Unable to report ham: " ++ data.error) s
  else displaySuccess "Successfully reported as ham." s

/-- The `.fail` callback of `learnHam`. -/
def learnHamFail (textStatus : String) (s : State) : State :=
  displayError ("Unable to report ham: " ++ textStatus) s

/-- When the learn spam spam reporting button is clicked, this function is called;
`r` is the answer of the `confirm` dialog. -/
def learnSpam (r : Bool) (s : State) : State :=
  match s.selectedMessage with
  | none => displayMessage "Select a message first." none none s
  | some m =>
    if r != true then s
    else { s with requests := s.requests ++
      [{ method := "PUT", url := "/api/message/" ++ m.uuid ++ "/learn_spam", dataType := some "json",
         q := none }] }

/-- The `.done` callback of `learnSpam`. -/
def learnSpamDone (data : LearnResponse) (s : State) : State :=
  if data.status = some "error" then displayError ("Unable to report spam: " ++ data.error) s
  else displaySuccess "Successfully reported as spam." s

/-- The `.fail` callback of `learnSpam`. -/
def learnSpamFail (textStatus : String) (s : State) : State :=
  displayError ("Unable to report spam: " ++ textStatus) s

/-! ## Local storage and the resizer (lines 246-297) -/

/-- The expression `!text` on a string: true exactly for the empty string. -/
def notString (text : String) : Bool :=
  text.isEmpty

/-- The property key a boolean is converted to by the `in` operator. -/
def propertyKey (b : Bool) : String :=
  if b then "true" else "false"

/-- The expression `key in localStorage`, for a key that no method of the storage
object is named after: whether the storage holds the key. -/
def storageHas (key : String) (storage : List (String × String)) : Bool :=
  (storage.lookup key).isSome

/-- The assignment `localStorage[key] = value`: the value of the key is replaced, or
the key is added. -/
def storageSet (key value : String) : List (String × String) → List (String × String)
  | [] => [(key, value)]
  | (k, v) :: rest =>
    if k = key then (key, value) :: rest else (k, v) :: storageSet key value rest

/-- This function activates the resizer element.  The condition of line 249 is
`localStorage && !'message_list_height' in localStorage`, in which `!` applies
to the string before `in` does: it reads `(!'message_list_height') in localStorage`.
The three mouse handlers are registered; they run on later events. -/
def makeMessageListResizable (s : State) : State :=
  let s1 :=
    match s.localStorage with
    | none => s
    | some storage =>
      if storageHas (propertyKey (notString "message_list_height")) storage then
        let height := toString s.messageListContainerHeight
        { s with localStorage := some (storageSet "message_list_height" height storage) }
      else s
  { s1 with registrations := s1.registrations ++
      [Registration.resizerMousedown, Registration.resizerMouseup, Registration.documentMousemove] }

/-- The condition the comment of line 248 describes, `!('message_list_height' in
localStorage)`, in place of the one written: the function as the comment has it. -/
def makeMessageListResizableAsCommented (s : State) : State :=
  let s1 :=
    match s.localStorage with
    | none => s
    | some storage =>
      if !storageHas "message_list_height" storage then
        let height := toString s.messageListContainerHeight
        { s with localStorage := some (storageSet "message_list_height" height storage) }
      else s
  { s1 with registrations := s1.registrations ++
      [Registration.resizerMousedown, Registration.resizerMouseup, Registration.documentMousemove] }

/-! ## The ready handler (lines 694-778) -/

/-- Register an event handler on the document. -/
def register (r : Registration) (s : State) : State :=
  { s with registrations := s.registrations ++ [r] }

/-- The function passed to `$(document).ready`; `hasWebSocket` is the truth of
`window["WebSocket"]`. -/
def ready (hasWebSocket : Bool) (s : State) : State :=
  if !hasWebSocket then
    displayError
      "Your browser does not support websockets, auto refresh will only occur once every minute." s
  else
    let s := connectToWS s
    let s := loadConfig s
    let s := makeMessageListResizable s
    let s := register Registration.windowResize s
    let s := (setTimeout Callback.handleResize 200 s).2
    let s := loadMessageList s
    let s := (setInterval Callback.checkIfRefreshNeeded 5000 s).2
    let s := (setInterval Callback.forceRefresh 60000 s).2
    let s := register Registration.searchInputInput s
    let s := register Registration.messageListClick s
    let s := register Registration.documentKeydown s
    let s := register Registration.navLinkClick s
    let s := register Registration.mailDownloadClick s
    let s := register Registration.mailLearnHamClick s
    let s := register Registration.mailLearnSpamClick s
    let s := match s.hashUuid with
      | some uuid => loadMessage uuid s
      | none => s
    register Registration.windowHashchange s

/-! ## The list loader as a state machine -/

/-- Whether a request is a list fetch. -/
def isListRequest (r : Request) : Bool :=
  r.url == "/api/message_log"

/-- The number of `/api/message_log` requests in flight. -/
def listInFlight (s : State) : Nat :=
  (s.requests.filter isListRequest).length

/-- The request `loadMessageList` sends from the state `s`. -/
def listRequest (s : State) : Request :=
  { method := "GET", url := "/api/message_log", dataType := some "json",
    q := if s.searchInput != "" then some s.searchInput else none }

/-- The steps of the list loader: the calls that reach it, and the completion of
the request numbered `i` among those in flight, by a response or by a
transport failure. -/
inductive Event where
  | loadMessageList
  | handleSearchInput
  | checkIfRefreshNeeded
  | channelMessage (data : String)
  | minuteTick
  | done (i : Nat) (data : ListResponse)
  | fail (i : Nat) (textStatus : String)

/-- Whether an event is the completion of a request. -/
def Event.isCompletion : Event → Bool
  | Event.done _ _ => true
  | Event.fail _ _ => true
  | _ => false

/-- Whether an event is the completion of the request numbered `i`, by a response
or by a transport failure. -/
def Event.completes (i : Nat) : Event → Bool
  | Event.done j _ => j == i
  | Event.fail j _ => j == i
  | _ => false

/-- Take the list fetch numbered `i` out of flight; `none` when there is no such
request or it is not a list fetch. -/
def completeRequest (i : Nat) (s : State) : Option State :=
  match s.requests[i]? with
  | none => none
  | some r =>
    if isListRequest r then some { s with requests := s.requests.eraseIdx i }
    else none

/-- One step of the machine with the way its handler ended; `none` when the event
cannot happen in `s`. -/
def stepOutcome (P : Platform) (L : Library) (e : Event) (s : State) : Option Outcome :=
  match e with
  | Event.loadMessageList => some { state := loadMessageList s, threw := none }
  | Event.handleSearchInput => some { state := handleSearchInput s, threw := none }
  | Event.checkIfRefreshNeeded => some { state := checkIfRefreshNeeded s, threw := none }
  | Event.channelMessage data => some (onmessage P data s)
  | Event.minuteTick => some { state := forceRefresh s, threw := none }
  | Event.done i data => (completeRequest i s).map (loadMessageListDone L data)
  | Event.fail i textStatus =>
    (completeRequest i s).map (fun s1 => { state := loadMessageListFail textStatus s1, threw := none })

/-- One step of the machine: the state the handler leaves, however it ended. -/
def step (P : Platform) (L : Library) (e : Event) (s : State) : Option State :=
  (stepOutcome P L e s).map (fun o => o.state)

/-- Run a sequence of events, in order; `none` when one of them cannot happen. -/
def runEvents (P : Platform) (L : Library) : List Event → State → Option State
  | [], s => some s
  | e :: es, s => (step P L e s).bind (runEvents P L es)

/-- Whether, in the run of the events from `s`, every completion callback returns
normally (no completion of a request ends with an exception). -/
def completionsReturn (P : Platform) (L : Library) : List Event → State → Bool
  | [], _ => true
  | e :: es, s =>
    match stepOutcome P L e s with
    | none => true
    | some o => (!e.isCompletion || o.threw.isNone) && completionsReturn P L es o.state

/-- The common end of the three completion callbacks (lines 343-347, 376-380 and
386-390), on the state `s` they have reached: `loading` is reset, and the list
is loaded again if a search input is pending. -/
def finishLoad (s : State) : State :=
  if s.shouldSearch = true then loadMessageList { s with loading := false }
  else { s with loading := false }

/-- Whether an event is a completion by failure: a transport failure, or a response
with the status "error". -/
def Event.isFailure : Event → Bool
  | Event.fail _ _ => true
  | Event.done _ data => data.status == some "error"
  | _ => false

/-- The coalescing invariant: at most one list fetch in flight, and `loading` is
set exactly when there is one. -/
def SingleFlight (s : State) : Prop :=
  listInFlight s ≤ 1 ∧ (s.loading = true ↔ listInFlight s = 1)

/-! ## The channel as a state machine -/

/-- Put the socket numbered `ws` into the ready state `r`. -/
def setReadyState (ws : Nat) (r : ReadyState) (s : State) : State :=
  match s.sockets[ws]? with
  | none => s
  | some k => { s with sockets := s.sockets.set ws { k with readyState := r } }

/-- The ready state of the socket numbered `ws`, when there is such a socket. -/
def readyStateOf (ws : Nat) (s : State) : Option ReadyState :=
  (s.sockets[ws]?).map (fun k => k.readyState)

/-- The socket `connectToWS` creates in the state `s`. -/
def newSocket (s : State) : Socket :=
  { url := "ws://" ++ s.host ++ "/ws", readyState := ReadyState.connecting }

/-- The browser fires the open event of a connecting socket. -/
def socketOpen (ws : Nat) (s : State) : Option State :=
  if readyStateOf ws s = some ReadyState.connecting then
    some (onopen (setReadyState ws ReadyState.opened s))
  else none

/-- The browser fires the error event of a socket that is not yet closed. -/
def socketError (ws : Nat) (err : String) (s : State) : Option State :=
  match readyStateOf ws s with
  | none => none
  | some r => if r = ReadyState.closed then none else some (onerror ws err s)

/-- The closure of a socket: a socket that is not yet closed becomes closed and the
browser fires its close event.  A socket closes once. -/
def socketClose (ws : Nat) (s : State) : Option State :=
  match readyStateOf ws s with
  | none => none
  | some r =>
    if r = ReadyState.closed then none
    else some (onclose (setReadyState ws ReadyState.closed s))

/-- The browser fires the message event of an open socket. -/
def socketMessage (P : Platform) (ws : Nat) (data : String) (s : State) : Option State :=
  if readyStateOf ws s = some ReadyState.opened then some (onmessage P data s).state
  else none

/-- A pending timeout of `hideMessage` or `connectToWS` comes due: it leaves the
pending timers and its function is called. -/
def timeoutDue (id : Nat) (s : State) : Option State :=
  match s.timers.find? (fun t => t.id == id) with
  | none => none
  | some t =>
    if t.repeating then none
    else
      match t.callback with
      | Callback.hideMessage =>
        some (hideMessage { s with timers := s.timers.filter (fun u => u.id != id) })
      | Callback.connectToWS =>
        some (connectToWS { s with timers := s.timers.filter (fun u => u.id != id) })
      | _ => none

/-- The events around the channel: the call `connectToWS()` of the ready handler, a
timeout coming due, the four events of a socket, and any other call of
`displayMessage` the script makes in between. -/
inductive ChannelEvent where
  | connect
  | timeoutDue (id : Nat)
  | socketOpen (ws : Nat)
  | socketError (ws : Nat) (err : String)
  | socketClose (ws : Nat)
  | socketMessage (ws : Nat) (data : String)
  | notice (message : String) (color : Option String) (timeout : Option Bool)

/-- One step of the channel machine; `none` when the event cannot happen in `s`. -/
def channelStep (P : Platform) (e : ChannelEvent) (s : State) : Option State :=
  match e with
  | ChannelEvent.connect => some (connectToWS s)
  | ChannelEvent.timeoutDue id => timeoutDue id s
  | ChannelEvent.socketOpen ws => socketOpen ws s
  | ChannelEvent.socketError ws err => socketError ws err s
  | ChannelEvent.socketClose ws => socketClose ws s
  | ChannelEvent.socketMessage ws data => socketMessage P ws data s
  | ChannelEvent.notice message color timeout => some (displayMessage message color timeout s)

/-- Run a sequence of channel events, in order. -/
def runChannel (P : Platform) : List ChannelEvent → State → Option State
  | [], s => some s
  | e :: es, s => (channelStep P e s).bind (runChannel P es)

/-! ## Timers and notices: what the statements speak of -/

/-- The pending timers left by `clearTimeout(messageTimer)`. -/
def clearedTimers (s : State) : List Timer :=
  (clearTimeout s.messageTimer s).timers

/-- The timeout `displayMessage` sets in the state `s` when its `timeout` argument is true. -/
def hideTimer (s : State) : Timer :=
  { id := s.nextTimerId, callback := Callback.hideMessage, delay := 5000, repeating := false }

/-- The timeout `onclose` sets in the state `s`. -/
def reconnectTimer (s : State) : Timer :=
  { id := s.nextTimerId, callback := Callback.connectToWS, delay := 5000, repeating := false }

/-- The timer ids in use are consistent: every pending timer and `messageTimer` carry
an id already handed out, and a pending timer that `messageTimer` names is a
`hideMessage` timer. -/
def TimersFresh (s : State) : Prop :=
  (∀ t ∈ s.timers, t.id < s.nextTimerId) ∧
  (∀ i, s.messageTimer = some i → i < s.nextTimerId) ∧
  (∀ t ∈ s.timers, s.messageTimer = some t.id → t.callback = Callback.hideMessage)

/-- Every pending `hideMessage` timer is the one `messageTimer` names. -/
def HideNamed (s : State) : Prop :=
  ∀ t ∈ s.timers, t.callback = Callback.hideMessage → s.messageTimer = some t.id

/-- In `s1` the error notice `message`, raised in `s`, is on screen and its hide
timer is armed: the notice is red and visible, the message is on the console,
the previous hide timer is cleared, and `messageTimer` names a new pending
timeout of 5000 ms for `hideMessage`. -/
def ErrorShown (message : String) (s s1 : State) : Prop :=
  s1.notice = { innerText := message, backgroundColor := "red", display := "block" } ∧
  s1.console = s.console ++ [ConsoleEntry.text message] ∧
  s1.messageTimer = some s.nextTimerId ∧
  s1.timers = clearedTimers s ++ [hideTimer s] ∧
  s1.nextTimerId = s.nextTimerId + 1

/-- The state `s1` differs from `s` at most in the notice: the `#message` element,
the console, `messageTimer` and the pending timers. -/
def NoticeOnly (s s1 : State) : Prop :=
  { s1 with notice := s.notice, console := s.console, messageTimer := s.messageTimer,
            timers := s.timers, nextTimerId := s.nextTimerId } = s

/-- A failure handled as by the five requests other than the list fetch: the error
notice is shown and armed, and nothing else changes. -/
def FailureHandled (message : String) (s s1 : State) : Prop :=
  ErrorShown message s s1 ∧ NoticeOnly s s1

/-- A failure of the list fetch handled as the code does: the error notice is shown
and armed; without a pending search only `loading` changes besides, to false;
with a pending search a new list fetch is started as well, which sets `loading`
again, clears `shouldSearch` and `shouldRefresh` and sends one request. -/
def ListFailureHandled (message : String) (s s1 : State) : Prop :=
  ErrorShown message s s1 ∧
  (s.shouldSearch = false →
    s1.loading = false ∧ NoticeOnly s { s1 with loading := s.loading }) ∧
  (s.shouldSearch = true →
    s1.loading = true ∧ s1.shouldSearch = false ∧ s1.shouldRefresh = false ∧
    s1.requests = s.requests ++ [listRequest s] ∧
    NoticeOnly s { s1 with loading := s.loading, shouldSearch := s.shouldSearch,
                           shouldRefresh := s.shouldRefresh, requests := s.requests })

/-! ## Channel messages between two checks -/

/-- The channel messages with the payloads `payloads` are handled one after the other;
a handler that ends with an exception leaves the state it reached. -/
def receiveAll (P : Platform) : List String → State → State
  | [], s => s
  | data :: rest, s => receiveAll P rest (onmessage P data s).state

/-! ## The list loader: what the statements speak of -/

/-- The weaker invariant, kept by every step: at most one list fetch in flight, and
`loading` is set whenever there is one. -/
def AtMostOne (s : State) : Prop :=
  listInFlight s ≤ 1 ∧ (listInFlight s = 1 → s.loading = true)

/-- The state `s1` agrees with `s` on what the list loader reads: the three flags,
the requests in flight and the search input. -/
def SameLoader (s s1 : State) : Prop :=
  s1.loading = s.loading ∧ s1.shouldSearch = s.shouldSearch ∧
  s1.shouldRefresh = s.shouldRefresh ∧ s1.requests = s.requests ∧
  s1.searchInput = s.searchInput

/-- The success path of the `.done` callback meets no exception on the response
`data` in the state `s`: the response has a message list, every row is rendered,
and jQuery accepts the selector of the selected message, if there is one. -/
def Renders (L : Library) (data : ListResponse) (s : State) : Prop :=
  ∃ messages, data.messages = some messages ∧
    (∀ m ∈ messages, L.renderError m = none) ∧
    ∀ sel, s.selectedMessage = some sel → L.selectorError ("#" ++ sel.uuid) = none

/-! ## Examples -/

/-- An example platform: it agrees with `JSON.parse` on the texts the examples
use, namely `null`, an object whose only field is a `type`, and the text of a
single opening brace, which is not JSON; no other text is used with it. -/
def examplePlatform : Platform where
  jsonParse := fun text =>
    if text = "null" then Except.ok JsValue.null
    else if text = "\x7b\"type\":\"receivedNewMessage\"\x7d" then
      Except.ok (JsValue.obj [("type", JsValue.str "receivedNewMessage")])
    else Except.error "SyntaxError: JSON.parse: unexpected end of data"
  toLocaleString := fun v =>
    match v with
    | JsValue.str t => Except.ok t
    | JsValue.num n => Except.ok n
    | JsValue.bool b => Except.ok (toString b)
    | _ => Except.ok "[object Object]"

/-- An example of what can happen during a fetch: the one-minute timer fires, a
channel message announces a new message, and the five-second check runs. -/
def exampleWindow : List Event :=
  [Event.minuteTick, Event.channelMessage "\x7b\"type\":\"receivedNewMessage\"\x7d",
   Event.checkIfRefreshNeeded]

/-- An example state at the completion of a list fetch: the first fetch of the script
has been taken out of flight, and a search input arrived while it was in flight. -/
def exampleSearching : State :=
  { handleSearchInput (loadMessageList State.init) with requests := [] }

/-- An example state of the channel: the ready handler has called `connectToWS` and
the socket has opened. -/
def exampleConnected : State :=
  onopen (setReadyState 0 ReadyState.opened (connectToWS State.init))

/-- An example storage state: a stored height together with a key named `false`. -/
def exampleStored : State :=
  { State.init with localStorage := some [("message_list_height", "150"), ("false", "")] }

/-- An example platform for the message count: it agrees with `JSON.parse` on the one
text the example uses, a message of type `updateMessageCount` with the count 5,
and gives a number its numeral as locale string. -/
def exampleCountPlatform : Platform where
  jsonParse := fun text =>
    if text = "\x7b\"type\":\"updateMessageCount\",\"msg\":5\x7d" then
      Except.ok (JsValue.obj [("type", JsValue.str "updateMessageCount"), ("msg", JsValue.num "5")])
    else Except.error "SyntaxError: JSON.parse: unexpected character"
  toLocaleString := fun v =>
    match v with
    | JsValue.num n => Except.ok n
    | JsValue.str t => Except.ok t
    | _ => Except.ok "[object Object]"

/-- The message the count example receives, as `JSON.parse` returns it. -/
def exampleCountMessage : JsValue :=
  JsValue.obj [("type", JsValue.str "updateMessageCount"), ("msg", JsValue.num "5")]

/-- An example library: it agrees with jQuery on the selectors the examples use, that
is on `#`, which jQuery rejects, and renders every row. -/
def exampleLibrary : Library where
  selectorError := fun selector =>
    if selector = "#" then some "Error: Syntax error, unrecognized expression: #" else none
  renderError := fun _ => none

/-- A success response without a message list. -/
def exampleNoMessages : ListResponse :=
  { status := none, error := "", messages := none }

/-- A success response with an empty message list. -/
def exampleEmptyList : ListResponse :=
  { status := none, error := "", messages := some [] }

/-- The state after the first list fetch of the script was answered by
`exampleNoMessages`: the callback ended with an exception. -/
def exampleStuck : State :=
  { loadMessageList State.init with requests := [], messageList := [] }

/-- A message whose `uuid` is the empty text. -/
def exampleNameless : Message :=
  { uuid := "", received := "", size := 0, sender := "", recipient := "", subject := "",
    spam_score := "", status := "", source_ip := "", plain_text := true, html := false }

/-- An example state during a list fetch: the first fetch of the script is in flight,
the message `exampleNameless` is selected, and a search input has arrived. -/
def exampleSelected : State :=
  handleSearchInput { loadMessageList State.init with selectedMessage := some exampleNameless }

/-- An example state during a list fetch: the first fetch of the script is in flight
and the one-minute timer has fired. -/
def exampleRefreshing : State :=
  forceRefresh (loadMessageList State.init)

/-- An example run: the script starts a list fetch, a search input arrives while it
is in flight, and the fetch is answered by an empty message list. -/
def exampleRun : List Event :=
  [Event.loadMessageList, Event.handleSearchInput, Event.done 0 exampleEmptyList]

/-- The state the example run ends in: the success callback has run on the state the
search input left, the answered request taken out of flight. -/
def exampleReloaded : State :=
  (loadMessageListDone exampleLibrary exampleEmptyList
    { handleSearchInput (loadMessageList State.init) with requests := [] }).state

/-! ## Frame lemmas -/

section Frame

@[simp] theorem clearTimeout_loading (i : Option Nat) (s : State) :
    (clearTimeout i s).loading = s.loading := by
  cases i <;> rfl

@[simp] theorem clearTimeout_shouldSearch (i : Option Nat) (s : State) :
    (clearTimeout i s).shouldSearch = s.shouldSearch := by
  cases i <;> rfl

@[simp] theorem clearTimeout_shouldRefresh (i : Option Nat) (s : State) :
    (clearTimeout i s).shouldRefresh = s.shouldRefresh := by
  cases i <;> rfl

@[simp] theorem clearTimeout_requests (i : Option Nat) (s : State) :
    (clearTimeout i s).requests = s.requests := by
  cases i <;> rfl

@[simp] theorem clearTimeout_searchInput (i : Option Nat) (s : State) :
    (clearTimeout i s).searchInput = s.searchInput := by
  cases i <;> rfl

@[simp] theorem displayMessage_loading (m : String) (c : Option String) (t : Option Bool)
    (s : State) : (displayMessage m c t s).loading = s.loading := by
  rcases t with _ | _ | _ <;> cases h : s.messageTimer <;>
    simp [displayMessage, setTimeout, clearTimeout, h]

@[simp] theorem displayMessage_shouldSearch (m : String) (c : Option String) (t : Option Bool)
    (s : State) : (displayMessage m c t s).shouldSearch = s.shouldSearch := by
  rcases t with _ | _ | _ <;> cases h : s.messageTimer <;>
    simp [displayMessage, setTimeout, clearTimeout, h]

@[simp] theorem displayMessage_shouldRefresh (m : String) (c : Option String) (t : Option Bool)
    (s : State) : (displayMessage m c t s).shouldRefresh = s.shouldRefresh := by
  rcases t with _ | _ | _ <;> cases h : s.messageTimer <;>
    simp [displayMessage, setTimeout, clearTimeout, h]

@[simp] theorem displayMessage_requests (m : String) (c : Option String) (t : Option Bool)
    (s : State) : (displayMessage m c t s).requests = s.requests := by
  rcases t with _ | _ | _ <;> cases h : s.messageTimer <;>
    simp [displayMessage, setTimeout, clearTimeout, h]

@[simp] theorem displayMessage_searchInput (m : String) (c : Option String) (t : Option Bool)
    (s : State) : (displayMessage m c t s).searchInput = s.searchInput := by
  rcases t with _ | _ | _ <;> cases h : s.messageTimer <;>
    simp [displayMessage, setTimeout, clearTimeout, h]

theorem isListRequest_listRequest (s : State) : isListRequest (listRequest s) = true := by
  simp [isListRequest, listRequest]

theorem loadMessageList_busy (s : State) (h : s.loading = true) : loadMessageList s = s := by
  simp [loadMessageList, h]

theorem loadMessageList_idle (s : State) (h : s.loading = false) :
    loadMessageList s =
      { s with loading := true, shouldRefresh := false, shouldSearch := false,
               requests := s.requests ++ [listRequest s] } := by
  simp [loadMessageList, h, listRequest]

theorem listInFlight_loadMessageList_idle (s : State) (h : s.loading = false) :
    listInFlight (loadMessageList s) = listInFlight s + 1 := by
  rw [loadMessageList_idle s h]
  simp [listInFlight, List.filter_append, isListRequest_listRequest]

theorem length_filter_eraseIdx (p : Request → Bool) :
    ∀ (l : List Request) (i : Nat) (r : Request), l[i]? = some r → p r = true →
      ((l.eraseIdx i).filter p).length + 1 = (l.filter p).length := by
  intro l
  induction l with
  | nil => intro i r h; simp at h
  | cons a l ih =>
    intro i r h hp
    cases i with
    | zero =>
      simp at h
      subst h
      simp [List.filter_cons, hp]
    | succ i =>
      have := ih i r (by simpa using h) hp
      simp only [List.eraseIdx_cons_succ, List.filter_cons]
      split_ifs
      · simp only [List.length_cons]; omega
      · exact this

theorem completeRequest_spec (i : Nat) (s s1 : State) (h : completeRequest i s = some s1) :
    s1 = { s with requests := s.requests.eraseIdx i } ∧ listInFlight s1 + 1 = listInFlight s := by
  unfold completeRequest at h
  cases hr : s.requests[i]? with
  | none => simp [hr] at h
  | some r =>
    simp only [hr] at h
    by_cases hp : isListRequest r = true
    · simp only [hp, if_true, Option.some.injEq] at h
      subst h
      exact ⟨rfl, length_filter_eraseIdx isListRequest s.requests i r hr hp⟩
    · simp [hp] at h

theorem singleFlight_of_idle (s : State) (hl : s.loading = false) (hq : listInFlight s = 0) :
    SingleFlight s := by
  simp [SingleFlight, hl, hq]

theorem singleFlight_congr (s s1 : State) (hl : s1.loading = s.loading)
    (hq : s1.requests = s.requests) (h : SingleFlight s) : SingleFlight s1 := by
  simpa [SingleFlight, listInFlight, hl, hq] using h

theorem singleFlight_loadMessageList (s : State) (h : SingleFlight s) :
    SingleFlight (loadMessageList s) := by
  cases hl : s.loading with
  | true => rw [loadMessageList_busy s hl]; exact h
  | false =>
    have hq : listInFlight s = 0 := by
      rcases h with ⟨h1, h2⟩
      rw [hl] at h2
      have : listInFlight s ≠ 1 := fun h3 => by simpa using h2.mpr h3
      omega
    refine ⟨?_, ?_⟩
    · rw [listInFlight_loadMessageList_idle s hl]; omega
    · rw [listInFlight_loadMessageList_idle s hl, loadMessageList_idle s hl]; simp [hq]

theorem singleFlight_fail (textStatus : String) (s : State) (hq : listInFlight s = 0) :
    SingleFlight (loadMessageListFail textStatus s) := by
  unfold loadMessageListFail
  simp only []
  split_ifs
  · apply singleFlight_loadMessageList
    apply singleFlight_of_idle _ rfl
    simpa [listInFlight, displayError] using hq
  · apply singleFlight_of_idle _ rfl
    simpa [listInFlight, displayError] using hq

theorem onmessage_loading (P : Platform) (data : String) (s : State) :
    (onmessage P data s).state.loading = s.loading := by
  unfold onmessage
  split
  · rfl
  · simp [displayError]
  · split
    · split_ifs
      · rfl
      · rfl
      · split <;> rfl
      · rfl
    · rfl

theorem onmessage_requests (P : Platform) (data : String) (s : State) :
    (onmessage P data s).state.requests = s.requests := by
  unfold onmessage
  split
  · rfl
  · simp [displayError]
  · split
    · split_ifs
      · rfl
      · rfl
      · split <;> rfl
      · rfl
    · rfl

theorem fail_eq_finishLoad (textStatus : String) (s : State) :
    loadMessageListFail textStatus s
      = finishLoad (displayError ("Unable to pull messages: " ++ textStatus) s) := rfl

theorem appendRows_frame (L : Library) :
    ∀ (messages : List Message) (s : State),
      ∃ rows, (appendRows L messages s).state = { s with messageList := rows } := by
  intro messages
  induction messages with
  | nil => intro s; exact ⟨s.messageList, rfl⟩
  | cons m rest ih =>
    intro s
    unfold appendRows
    split
    · exact ⟨s.messageList, rfl⟩
    · obtain ⟨rows, h⟩ := ih { s with messageList := s.messageList ++ [{ message := m, active := false }] }
      exact ⟨rows, h⟩

theorem activateSelected_frame (L : Library) (s : State) :
    ∃ rows, (activateSelected L s).state = { s with messageList := rows } := by
  unfold activateSelected
  split
  · exact ⟨s.messageList, rfl⟩
  · split
    · exact ⟨s.messageList, rfl⟩
    · exact ⟨_, rfl⟩

theorem done_error (L : Library) (data : ListResponse) (s : State)
    (he : data.status = some "error") :
    loadMessageListDone L data s =
      { state := finishLoad (displayError ("Unable to pull messages: " ++ data.error) s),
        threw := none } := by
  simp only [loadMessageListDone, he, if_true]
  rfl

/-- The two ways the `.done` callback ends: with an exception, on a state that
agrees with `s` on what the loader reads, or normally, with the common end of
the callbacks run on such a state. -/
theorem done_cases (L : Library) (data : ListResponse) (s : State) :
    ∃ s1, SameLoader s s1 ∧
      (((loadMessageListDone L data s).threw ≠ none ∧ (loadMessageListDone L data s).state = s1) ∨
       ((loadMessageListDone L data s).threw = none ∧
        (loadMessageListDone L data s).state = finishLoad s1)) := by
  by_cases he : data.status = some "error"
  · refine ⟨displayError ("Unable to pull messages: " ++ data.error) s, ?_, Or.inr ?_⟩
    · simp [SameLoader, displayError]
    · rw [done_error L data s he]
      exact ⟨rfl, rfl⟩
  · unfold loadMessageListDone
    simp only [he, if_false]
    cases hm : data.messages with
    | none => exact ⟨{ s with messageList := [] }, ⟨rfl, rfl, rfl, rfl, rfl⟩, Or.inl ⟨by simp, rfl⟩⟩
    | some messages =>
      obtain ⟨rows, hr⟩ := appendRows_frame L messages { s with messageList := [] }
      simp only []
      cases ht : (appendRows L messages { s with messageList := [] }).threw with
      | some e =>
        exact ⟨{ s with messageList := rows }, ⟨rfl, rfl, rfl, rfl, rfl⟩,
          Or.inl ⟨by simp, by simpa using hr⟩⟩
      | none =>
        obtain ⟨rows2, ha⟩ :=
          activateSelected_frame L (appendRows L messages { s with messageList := [] }).state
        simp only []
        cases hu : (activateSelected L
            (appendRows L messages { s with messageList := [] }).state).threw with
        | some e =>
          refine ⟨{ s with messageList := rows2 }, ⟨rfl, rfl, rfl, rfl, rfl⟩, Or.inl ⟨by simp, ?_⟩⟩
          simp only []
          rw [ha, hr]
        | none =>
          refine ⟨{ s with messageList := rows2 }, ⟨rfl, rfl, rfl, rfl, rfl⟩, Or.inr ⟨rfl, ?_⟩⟩
          simp only []
          rw [ha, hr]
          rfl

theorem finishLoad_of_search (s : State) (h : s.shouldSearch = true) :
    (finishLoad s).requests = s.requests ++ [listRequest s] ∧
    (finishLoad s).shouldSearch = false ∧
    (finishLoad s).shouldRefresh = false ∧
    (finishLoad s).loading = true := by
  simp [finishLoad, h, loadMessageList, listRequest]

theorem finishLoad_of_no_search (s : State) (h : s.shouldSearch = false) :
    (finishLoad s).requests = s.requests ∧
    (finishLoad s).shouldSearch = false ∧
    (finishLoad s).shouldRefresh = s.shouldRefresh ∧
    (finishLoad s).loading = false := by
  simp [finishLoad, h]

theorem finishLoad_searchInput (s : State) : (finishLoad s).searchInput = s.searchInput := by
  by_cases h : s.shouldSearch = true <;> simp [finishLoad, h, loadMessageList]

theorem singleFlight_finishLoad (s : State) (hq : listInFlight s = 0) :
    SingleFlight (finishLoad s) := by
  unfold finishLoad
  split_ifs
  · apply singleFlight_loadMessageList
    exact singleFlight_of_idle _ rfl (by simpa [listInFlight] using hq)
  · exact singleFlight_of_idle _ rfl (by simpa [listInFlight] using hq)

theorem atMostOne_of_singleFlight (s : State) (h : SingleFlight s) : AtMostOne s :=
  ⟨h.1, h.2.mpr⟩

theorem atMostOne_of_none (s : State) (hq : listInFlight s = 0) : AtMostOne s := by
  simp [AtMostOne, hq]

theorem listInFlight_congr (s s1 : State) (h : s1.requests = s.requests) :
    listInFlight s1 = listInFlight s := by
  simp [listInFlight, h]

theorem atMostOne_congr (s s1 : State) (hl : s1.loading = s.loading)
    (hq : s1.requests = s.requests) (h : AtMostOne s) : AtMostOne s1 := by
  simpa [AtMostOne, listInFlight, hl, hq] using h

theorem atMostOne_loadMessageList (s : State) (h : AtMostOne s) :
    AtMostOne (loadMessageList s) := by
  cases hl : s.loading with
  | true => rw [loadMessageList_busy s hl]; exact h
  | false =>
    have hq : listInFlight s = 0 := by
      rcases h with ⟨h1, h2⟩
      have : listInFlight s ≠ 1 := fun h3 => by simpa [hl] using h2 h3
      omega
    exact atMostOne_of_singleFlight _
      (singleFlight_loadMessageList s (singleFlight_of_idle s hl hq))

/-- What a step that is not a completion does to the loader: nothing to `loading` and
the requests, or a call of `loadMessageList`. -/
theorem stepOutcome_plain (P : Platform) (L : Library) (e : Event) (s : State) (o : Outcome)
    (he : e.isCompletion = false) (hs : stepOutcome P L e s = some o) :
    (o.state.loading = s.loading ∧ o.state.requests = s.requests) ∨
    o.state = loadMessageList s := by
  cases e with
  | loadMessageList =>
    simp only [stepOutcome, Option.some.injEq] at hs
    subst hs
    exact Or.inr rfl
  | handleSearchInput =>
    simp only [stepOutcome, Option.some.injEq] at hs
    subst hs
    simp only [handleSearchInput]
    split_ifs
    · exact Or.inl ⟨rfl, rfl⟩
    · exact Or.inr rfl
  | checkIfRefreshNeeded =>
    simp only [stepOutcome, Option.some.injEq] at hs
    subst hs
    simp only [checkIfRefreshNeeded]
    split_ifs
    · exact Or.inr rfl
    · exact Or.inl ⟨rfl, rfl⟩
  | channelMessage data =>
    simp only [stepOutcome, Option.some.injEq] at hs
    subst hs
    exact Or.inl ⟨onmessage_loading P data s, onmessage_requests P data s⟩
  | minuteTick =>
    simp only [stepOutcome, Option.some.injEq] at hs
    subst hs
    exact Or.inl ⟨rfl, rfl⟩
  | done i data => simp [Event.isCompletion] at he
  | fail i textStatus => simp [Event.isCompletion] at he

/-- What a completion does: the request is taken out of flight, and the callback
either ends with an exception on a state that agrees with it on what the
loader reads, or runs the common end of the callbacks on such a state. -/
theorem stepOutcome_completion (P : Platform) (L : Library) (e : Event) (s : State) (o : Outcome)
    (he : e.isCompletion = true) (hs : stepOutcome P L e s = some o) :
    ∃ s1, listInFlight s1 + 1 = listInFlight s ∧ s1.loading = s.loading ∧
      ((o.threw ≠ none ∧ o.state = s1) ∨ (o.threw = none ∧ o.state = finishLoad s1)) := by
  cases e with
  | done i data =>
    simp only [stepOutcome, Option.map_eq_some'] at hs
    obtain ⟨s2, h2, rfl⟩ := hs
    obtain ⟨h3, h4⟩ := completeRequest_spec i s s2 h2
    obtain ⟨s1, hsame, hc⟩ := done_cases L data s2
    refine ⟨s1, ?_, ?_, hc⟩
    · rw [listInFlight_congr s2 s1 hsame.2.2.2.1]; exact h4
    · rw [hsame.1, h3]
  | fail i textStatus =>
    simp only [stepOutcome, Option.map_eq_some'] at hs
    obtain ⟨s2, h2, rfl⟩ := hs
    obtain ⟨h3, h4⟩ := completeRequest_spec i s s2 h2
    refine ⟨displayError ("Unable to pull messages: " ++ textStatus) s2, ?_, ?_, Or.inr ⟨rfl, rfl⟩⟩
    · rw [listInFlight_congr s2 _ (by simp [displayError])]; exact h4
    · rw [h3]; simp [displayError]
  | loadMessageList => simp [Event.isCompletion] at he
  | handleSearchInput => simp [Event.isCompletion] at he
  | checkIfRefreshNeeded => simp [Event.isCompletion] at he
  | channelMessage data => simp [Event.isCompletion] at he
  | minuteTick => simp [Event.isCompletion] at he

theorem atMostOne_stepOutcome (P : Platform) (L : Library) (e : Event) (s : State) (o : Outcome)
    (h : AtMostOne s) (hs : stepOutcome P L e s = some o) : AtMostOne o.state := by
  cases he : e.isCompletion with
  | false =>
    rcases stepOutcome_plain P L e s o he hs with ⟨h1, h2⟩ | h1
    · exact atMostOne_congr s _ h1 h2 h
    · rw [h1]; exact atMostOne_loadMessageList s h
  | true =>
    obtain ⟨s1, h1, _, hc⟩ := stepOutcome_completion P L e s o he hs
    have hq : listInFlight s1 = 0 := by have := h.1; omega
    rcases hc with ⟨_, h3⟩ | ⟨_, h3⟩
    · rw [h3]; exact atMostOne_of_none s1 hq
    · rw [h3]; exact atMostOne_of_singleFlight _ (singleFlight_finishLoad s1 hq)

theorem singleFlight_stepOutcome (P : Platform) (L : Library) (e : Event) (s : State)
    (o : Outcome) (h : SingleFlight s) (hs : stepOutcome P L e s = some o)
    (hq : e.isCompletion = true → o.threw = none) : SingleFlight o.state := by
  cases he : e.isCompletion with
  | false =>
    rcases stepOutcome_plain P L e s o he hs with ⟨h1, h2⟩ | h1
    · exact singleFlight_congr s _ h1 h2 h
    · rw [h1]; exact singleFlight_loadMessageList s h
  | true =>
    obtain ⟨s1, h1, _, hc⟩ := stepOutcome_completion P L e s o he hs
    have hz : listInFlight s1 = 0 := by have := h.1; omega
    rcases hc with ⟨h2, _⟩ | ⟨_, h3⟩
    · exact absurd (hq he) h2
    · rw [h3]; exact singleFlight_finishLoad s1 hz

theorem runEvents_cons (P : Platform) (L : Library) (e : Event) (es : List Event)
    (s s1 : State) (h : runEvents P L (e :: es) s = some s1) :
    ∃ o, stepOutcome P L e s = some o ∧ runEvents P L es o.state = some s1 := by
  simp only [runEvents, step, Option.bind_eq_some, Option.map_eq_some'] at h
  obtain ⟨s2, ⟨o, ho, rfl⟩, h3⟩ := h
  exact ⟨o, ho, h3⟩

theorem atMostOne_run (P : Platform) (L : Library) :
    ∀ (es : List Event) (s s1 : State), AtMostOne s → runEvents P L es s = some s1 →
      AtMostOne s1 := by
  intro es
  induction es with
  | nil =>
    intro s s1 hs h
    simp only [runEvents, Option.some.injEq] at h
    subst h
    exact hs
  | cons e es ih =>
    intro s s1 hs h
    obtain ⟨o, ho, h3⟩ := runEvents_cons P L e es s s1 h
    exact ih o.state s1 (atMostOne_stepOutcome P L e s o hs ho) h3

theorem singleFlight_run (P : Platform) (L : Library) :
    ∀ (es : List Event) (s s1 : State), SingleFlight s → runEvents P L es s = some s1 →
      completionsReturn P L es s = true → SingleFlight s1 := by
  intro es
  induction es with
  | nil =>
    intro s s1 hs h _
    simp only [runEvents, Option.some.injEq] at h
    subst h
    exact hs
  | cons e es ih =>
    intro s s1 hs h hc
    obtain ⟨o, ho, h3⟩ := runEvents_cons P L e es s s1 h
    simp only [completionsReturn, ho, Bool.and_eq_true, Bool.or_eq_true, Bool.not_eq_true',
      Option.isNone_iff_eq_none] at hc
    refine ih o.state s1 (singleFlight_stepOutcome P L e s o hs ho ?_) h3 hc.2
    intro he
    rcases hc.1 with h1 | h1
    · rw [he] at h1; cases h1
    · exact h1

end Frame

section Completion

theorem fail_of_search (textStatus : String) (s : State) (h : s.shouldSearch = true) :
    (loadMessageListFail textStatus s).requests = s.requests ++ [listRequest s] ∧
    (loadMessageListFail textStatus s).shouldSearch = false ∧
    (loadMessageListFail textStatus s).shouldRefresh = false ∧
    (loadMessageListFail textStatus s).loading = true := by
  simp [loadMessageListFail, h, displayError, loadMessageList, listRequest]

theorem fail_of_no_search (textStatus : String) (s : State) (h : s.shouldSearch = false) :
    (loadMessageListFail textStatus s).requests = s.requests ∧
    (loadMessageListFail textStatus s).shouldSearch = false ∧
    (loadMessageListFail textStatus s).shouldRefresh = s.shouldRefresh ∧
    (loadMessageListFail textStatus s).loading = false := by
  simp [loadMessageListFail, h, displayError]

theorem completeRequest_of_list (i : Nat) (s : State) (r : Request)
    (hi : s.requests[i]? = some r) (hr : isListRequest r = true) :
    completeRequest i s = some { s with requests := s.requests.eraseIdx i } := by
  simp [completeRequest, hi, hr]

theorem iterate_handleSearchInput (s : State) (hl : s.loading = true) :
    ∀ n : Nat, 1 ≤ n → handleSearchInput^[n] s = { s with shouldSearch := true } := by
  have h1 : handleSearchInput s = { s with shouldSearch := true } := by
    simp [handleSearchInput, hl]
  have h2 : handleSearchInput { s with shouldSearch := true } = { s with shouldSearch := true } := by
    simp [handleSearchInput, hl]
  intro n hn
  induction n with
  | zero => omega
  | succ k ih =>
    rcases Nat.eq_zero_or_pos k with hk | hk
    · subst hk; simpa using h1
    · rw [Function.iterate_succ_apply', ih hk, h2]

end Completion

section Window

theorem onmessage_cases (P : Platform) (data : String) (s : State) :
    (onmessage P data s).state = s ∨
    (onmessage P data s).state = displayError ("Received weird response: " ++ data) s ∨
    (onmessage P data s).state = { s with shouldRefresh := true } ∨
    (∃ text v, (onmessage P data s).state =
      { s with messageCount := text, console := s.console ++ [ConsoleEntry.value v] }) ∨
    (∃ v, (onmessage P data s).state = { s with console := s.console ++ [ConsoleEntry.value v] }) := by
  unfold onmessage
  split
  · exact Or.inl rfl
  · exact Or.inr (Or.inl rfl)
  · split
    · split_ifs
      · exact Or.inr (Or.inr (Or.inl rfl))
      · exact Or.inr (Or.inr (Or.inl rfl))
      · split
        · exact Or.inl rfl
        · exact Or.inr (Or.inr (Or.inr (Or.inl ⟨_, _, rfl⟩)))
      · exact Or.inr (Or.inr (Or.inr (Or.inr ⟨_, rfl⟩)))
    · exact Or.inr (Or.inr (Or.inr (Or.inr ⟨_, rfl⟩)))

theorem onmessage_searchInput (P : Platform) (data : String) (s : State) :
    (onmessage P data s).state.searchInput = s.searchInput := by
  rcases onmessage_cases P data s with h | h | h | ⟨_, _, h⟩ | ⟨_, h⟩ <;>
    (rw [h]; try simp [displayError])

theorem onmessage_shouldSearch (P : Platform) (data : String) (s : State) :
    (onmessage P data s).state.shouldSearch = s.shouldSearch := by
  rcases onmessage_cases P data s with h | h | h | ⟨_, _, h⟩ | ⟨_, h⟩ <;>
    (rw [h]; try simp [displayError])

theorem onmessage_shouldRefresh_of_set (P : Platform) (data : String) (s : State)
    (hs : s.shouldRefresh = true) : (onmessage P data s).state.shouldRefresh = true := by
  rcases onmessage_cases P data s with h | h | h | ⟨_, _, h⟩ | ⟨_, h⟩ <;> rw [h] <;>
    simp [displayError, hs]

theorem fail_searchInput (textStatus : String) (s : State) :
    (loadMessageListFail textStatus s).searchInput = s.searchInput := by
  unfold loadMessageListFail
  by_cases h : s.shouldSearch = true <;> simp [h, displayError, loadMessageList]

theorem listRequest_congr (s s1 : State) (h : s1.searchInput = s.searchInput) :
    listRequest s1 = listRequest s := by
  simp [listRequest, h]

end Window

section Deferred

theorem check_noop (s : State) (hf : s.shouldRefresh = false) : checkIfRefreshNeeded s = s := by
  simp [checkIfRefreshNeeded, hf]

theorem check_busy (s : State) (hl : s.loading = true) : checkIfRefreshNeeded s = s := by
  unfold checkIfRefreshNeeded
  split_ifs
  · exact loadMessageList_busy s hl
  · rfl

theorem check_after_idle (s : State) (hl : s.loading = false) (hf : s.shouldRefresh = true) :
    (checkIfRefreshNeeded s).requests = s.requests ++ [listRequest s] ∧
    (checkIfRefreshNeeded s).shouldRefresh = false ∧
    (checkIfRefreshNeeded s).loading = true ∧
    checkIfRefreshNeeded (checkIfRefreshNeeded s) = checkIfRefreshNeeded s := by
  have h : checkIfRefreshNeeded s = loadMessageList s := by simp [checkIfRefreshNeeded, hf]
  have h2 := loadMessageList_idle s hl
  refine ⟨by rw [h, h2], by rw [h, h2], by rw [h, h2], ?_⟩
  apply check_noop
  rw [h, h2]

/-- What the completion handlers have in common, for a handler result `s2` on the
state `s1` from which the completed request was taken. -/
theorem deferred_after_completion (s s1 s2 : State) (l : List Request)
    (hf : s1.shouldRefresh = true) (hin : s1.searchInput = s.searchInput)
    (hq : s1.requests = l) (hin2 : s2.searchInput = s1.searchInput)
    (hyes : s1.shouldSearch = true → s2.requests = s1.requests ++ [listRequest s1] ∧
      s2.shouldSearch = false ∧ s2.shouldRefresh = false ∧ s2.loading = true)
    (hno : s1.shouldSearch = false → s2.requests = s1.requests ∧
      s2.shouldSearch = false ∧ s2.shouldRefresh = s1.shouldRefresh ∧ s2.loading = false) :
    (s1.shouldSearch = true →
      s2.requests = l ++ [listRequest s] ∧ s2.shouldRefresh = false ∧ s2.loading = true ∧
      checkIfRefreshNeeded s2 = s2) ∧
    (s1.shouldSearch = false →
      s2.requests = l ∧ s2.shouldRefresh = true ∧ s2.loading = false ∧
      (checkIfRefreshNeeded s2).requests = l ++ [listRequest s] ∧
      (checkIfRefreshNeeded s2).shouldRefresh = false ∧
      (checkIfRefreshNeeded s2).loading = true ∧
      checkIfRefreshNeeded (checkIfRefreshNeeded s2) = checkIfRefreshNeeded s2) := by
  constructor
  · intro h
    obtain ⟨h1, _, h3, h4⟩ := hyes h
    refine ⟨?_, h3, h4, check_noop s2 h3⟩
    rw [h1, hq, listRequest_congr s s1 hin]
  · intro h
    obtain ⟨h1, _, h3, h4⟩ := hno h
    have h5 : s2.shouldRefresh = true := by rw [h3, hf]
    obtain ⟨k1, k2, k3, k4⟩ := check_after_idle s2 h4 h5
    refine ⟨by rw [h1, hq], h5, h4, ?_, k2, k3, k4⟩
    rw [k1, h1, hq, listRequest_congr s s2 (hin2.trans hin)]

end Deferred

section Timers

theorem displayMessage_armed (m : String) (c : Option String) (s : State) :
    (displayMessage m c (some true) s).timers = clearedTimers s ++ [hideTimer s] ∧
    (displayMessage m c (some true) s).nextTimerId = s.nextTimerId + 1 ∧
    (displayMessage m c (some true) s).messageTimer = some s.nextTimerId := by
  cases h : s.messageTimer <;>
    simp [displayMessage, setTimeout, clearTimeout, clearedTimers, hideTimer, h]

theorem displayMessage_unarmed (m : String) (c : Option String) (t : Option Bool) (s : State)
    (ht : t ≠ some true) :
    (displayMessage m c t s).timers = clearedTimers s ∧
    (displayMessage m c t s).nextTimerId = s.nextTimerId ∧
    (displayMessage m c t s).messageTimer = s.messageTimer := by
  cases h : s.messageTimer <;>
    simp [displayMessage, setTimeout, clearTimeout, clearedTimers, h, ht]

theorem mem_clearedTimers (s : State) (t : Timer) (h : t ∈ clearedTimers s) : t ∈ s.timers := by
  unfold clearedTimers clearTimeout at h
  cases hm : s.messageTimer with
  | none => simpa [hm] using h
  | some i =>
    simp only [hm, List.mem_filter] at h
    exact h.1

theorem not_named_of_mem_clearedTimers (s : State) (t : Timer) (h : t ∈ clearedTimers s) :
    s.messageTimer ≠ some t.id := by
  unfold clearedTimers clearTimeout at h
  cases hm : s.messageTimer with
  | none => simp
  | some i =>
    simp only [hm, List.mem_filter] at h
    intro heq
    have : i = t.id := by simpa using heq
    simp [this] at h

theorem reconnect_clearedTimers (s : State) (hs : TimersFresh s) :
    (clearedTimers s).filter (fun t => t.callback == Callback.connectToWS) = reconnectTimers s := by
  unfold clearedTimers clearTimeout reconnectTimers
  cases hm : s.messageTimer with
  | none => rfl
  | some i =>
    simp only [List.filter_filter]
    apply List.filter_congr
    intro t ht
    by_cases hid : t.id = i
    · have := hs.2.2 t ht (by rw [hm, hid])
      simp [this]
    · simp [hid]

theorem timersFresh_displayMessage (m : String) (c : Option String) (t : Option Bool) (s : State)
    (hs : TimersFresh s) : TimersFresh (displayMessage m c t s) := by
  by_cases ht : t = some true
  · subst ht
    obtain ⟨h1, h2, h3⟩ := displayMessage_armed m c s
    refine ⟨?_, ?_, ?_⟩
    · intro u hu
      rw [h1, List.mem_append] at hu
      rw [h2]
      rcases hu with hu | hu
      · have := hs.1 u (mem_clearedTimers s u hu); omega
      · simp only [List.mem_singleton] at hu
        subst hu
        simp [hideTimer]
    · intro i hi
      rw [h3] at hi
      rw [h2]
      have : s.nextTimerId = i := by simpa using hi
      omega
    · intro u hu hn
      rw [h1, List.mem_append] at hu
      rw [h3] at hn
      have hid : s.nextTimerId = u.id := by simpa using hn
      rcases hu with hu | hu
      · have := hs.1 u (mem_clearedTimers s u hu); omega
      · simp only [List.mem_singleton] at hu
        subst hu
        rfl
  · obtain ⟨h1, h2, h3⟩ := displayMessage_unarmed m c t s ht
    refine ⟨?_, ?_, ?_⟩
    · intro u hu
      rw [h1] at hu
      rw [h2]
      exact hs.1 u (mem_clearedTimers s u hu)
    · intro i hi
      rw [h3] at hi
      rw [h2]
      exact hs.2.1 i hi
    · intro u hu hn
      rw [h1] at hu
      rw [h3] at hn
      exact absurd hn (not_named_of_mem_clearedTimers s u hu)

theorem reconnect_displayMessage (m : String) (c : Option String) (t : Option Bool) (s : State)
    (hs : TimersFresh s) : reconnectTimers (displayMessage m c t s) = reconnectTimers s := by
  by_cases ht : t = some true
  · subst ht
    have h1 := (displayMessage_armed m c s).1
    unfold reconnectTimers at *
    rw [h1, List.filter_append, reconnect_clearedTimers s hs]
    simp [hideTimer, reconnectTimers]
  · have h1 := (displayMessage_unarmed m c t s ht).1
    unfold reconnectTimers at *
    rw [h1, reconnect_clearedTimers s hs]
    rfl

/-- A change of fields other than the timers keeps the timers consistent. -/
theorem timersFresh_congr (s s1 : State) (h1 : s1.timers = s.timers)
    (h2 : s1.nextTimerId = s.nextTimerId) (h3 : s1.messageTimer = s.messageTimer)
    (hs : TimersFresh s) : TimersFresh s1 := by
  unfold TimersFresh at *
  rw [h1, h2, h3]
  exact hs

end Timers

section Channel

theorem setReadyState_timers (ws : Nat) (r : ReadyState) (s : State) :
    (setReadyState ws r s).timers = s.timers ∧
    (setReadyState ws r s).nextTimerId = s.nextTimerId ∧
    (setReadyState ws r s).messageTimer = s.messageTimer := by
  unfold setReadyState
  split <;> exact ⟨rfl, rfl, rfl⟩

theorem wsClose_timers (ws : Nat) (s : State) :
    (wsClose ws s).timers = s.timers ∧
    (wsClose ws s).nextTimerId = s.nextTimerId ∧
    (wsClose ws s).messageTimer = s.messageTimer := by
  unfold wsClose
  split
  · exact ⟨rfl, rfl, rfl⟩
  · split_ifs <;> exact ⟨rfl, rfl, rfl⟩

theorem timersFresh_setReadyState (ws : Nat) (r : ReadyState) (s : State) (hs : TimersFresh s) :
    TimersFresh (setReadyState ws r s) :=
  timersFresh_congr s _ (setReadyState_timers ws r s).1 (setReadyState_timers ws r s).2.1
    (setReadyState_timers ws r s).2.2 hs

theorem timersFresh_connectToWS (s : State) (hs : TimersFresh s) : TimersFresh (connectToWS s) :=
  timersFresh_congr (displayMessage "Connecting to websockets daemon" none none s) _ rfl rfl rfl
    (timersFresh_displayMessage _ _ _ s hs)

theorem timersFresh_onerror (ws : Nat) (err : String) (s : State) (hs : TimersFresh s) :
    TimersFresh (onerror ws err s) :=
  timersFresh_congr (displayError err s) _ (wsClose_timers ws _).1 (wsClose_timers ws _).2.1
    (wsClose_timers ws _).2.2 (timersFresh_displayMessage _ _ _ s hs)

theorem onclose_timers (s : State) :
    (onclose s).timers = clearedTimers s ++ [reconnectTimer s] ∧
    (onclose s).nextTimerId = s.nextTimerId + 1 ∧
    (onclose s).messageTimer = s.messageTimer := by
  obtain ⟨h1, h2, h3⟩ := displayMessage_unarmed "Websockets connection closed"
    (some "cadetblue") (some false) s (by decide)
  simp [onclose, setTimeout, h1, h2, h3, reconnectTimer]

theorem timersFresh_onclose (s : State) (hs : TimersFresh s) : TimersFresh (onclose s) := by
  obtain ⟨h1, h2, h3⟩ := onclose_timers s
  refine ⟨?_, ?_, ?_⟩
  · intro u hu
    rw [h1, List.mem_append] at hu
    rw [h2]
    rcases hu with hu | hu
    · have := hs.1 u (mem_clearedTimers s u hu); omega
    · simp only [List.mem_singleton] at hu
      subst hu
      simp [reconnectTimer]
  · intro i hi
    rw [h3] at hi
    rw [h2]
    have := hs.2.1 i hi
    omega
  · intro u hu hn
    rw [h1, List.mem_append] at hu
    rw [h3] at hn
    rcases hu with hu | hu
    · exact absurd hn (not_named_of_mem_clearedTimers s u hu)
    · simp only [List.mem_singleton] at hu
      subst hu
      have := hs.2.1 _ hn
      simp [reconnectTimer] at this

theorem reconnect_onclose (s : State) (hs : TimersFresh s) :
    reconnectTimers (onclose s) = reconnectTimers s ++ [reconnectTimer s] := by
  unfold reconnectTimers
  rw [(onclose_timers s).1, List.filter_append, reconnect_clearedTimers s hs]
  simp [reconnectTimer, reconnectTimers]

theorem timersFresh_hideMessage (s : State) (hs : TimersFresh s) : TimersFresh (hideMessage s) := by
  have h1 : (hideMessage s).timers = clearedTimers s := by
    cases h : s.messageTimer <;> simp [hideMessage, clearedTimers, clearTimeout, h]
  have h2 : (hideMessage s).nextTimerId = s.nextTimerId := by
    cases h : s.messageTimer <;> simp [hideMessage, clearTimeout, h]
  have h3 : (hideMessage s).messageTimer = none := by
    cases h : s.messageTimer <;> simp [hideMessage, clearTimeout, h]
  refine ⟨?_, ?_, ?_⟩
  · intro u hu
    rw [h1] at hu
    rw [h2]
    exact hs.1 u (mem_clearedTimers s u hu)
  · intro i hi
    rw [h3] at hi
    cases hi
  · intro u _ hn
    rw [h3] at hn
    cases hn

theorem timersFresh_onmessage (P : Platform) (data : String) (s : State) (hs : TimersFresh s) :
    TimersFresh (onmessage P data s).state := by
  rcases onmessage_cases P data s with h | h | h | ⟨_, _, h⟩ | ⟨_, h⟩ <;> rw [h]
  · exact hs
  · exact timersFresh_displayMessage _ _ _ s hs
  · exact timersFresh_congr s _ rfl rfl rfl hs
  · exact timersFresh_congr s _ rfl rfl rfl hs
  · exact timersFresh_congr s _ rfl rfl rfl hs

theorem timersFresh_drop (id : Nat) (s : State) (hs : TimersFresh s) :
    TimersFresh { s with timers := s.timers.filter (fun u => u.id != id) } := by
  refine ⟨?_, hs.2.1, ?_⟩
  · intro u hu
    exact hs.1 u (List.mem_filter.mp hu).1
  · intro u hu hn
    exact hs.2.2 u (List.mem_filter.mp hu).1 hn

theorem timersFresh_channelStep (P : Platform) (e : ChannelEvent) (s s1 : State)
    (hs : TimersFresh s) (h : channelStep P e s = some s1) : TimersFresh s1 := by
  cases e with
  | connect =>
    simp only [channelStep, Option.some.injEq] at h
    subst h
    exact timersFresh_connectToWS s hs
  | timeoutDue id =>
    simp only [channelStep, timeoutDue] at h
    split at h
    · cases h
    · split_ifs at h
      split at h
      · simp only [Option.some.injEq] at h
        subst h
        exact timersFresh_hideMessage _ (timersFresh_drop id s hs)
      · simp only [Option.some.injEq] at h
        subst h
        exact timersFresh_connectToWS _ (timersFresh_drop id s hs)
      · cases h
  | socketOpen ws =>
    simp only [channelStep, socketOpen] at h
    split_ifs at h
    simp only [Option.some.injEq] at h
    subst h
    exact timersFresh_displayMessage _ _ _ _ (timersFresh_setReadyState ws _ s hs)
  | socketError ws err =>
    simp only [channelStep, socketError] at h
    split at h
    · cases h
    · split_ifs at h
      simp only [Option.some.injEq] at h
      subst h
      exact timersFresh_onerror ws err s hs
  | socketClose ws =>
    simp only [channelStep, socketClose] at h
    split at h
    · cases h
    · split_ifs at h
      simp only [Option.some.injEq] at h
      subst h
      exact timersFresh_onclose _ (timersFresh_setReadyState ws _ s hs)
  | socketMessage ws data =>
    simp only [channelStep, socketMessage] at h
    split_ifs at h
    simp only [Option.some.injEq] at h
    subst h
    exact timersFresh_onmessage P data s hs
  | notice message color timeout =>
    simp only [channelStep, Option.some.injEq] at h
    subst h
    exact timersFresh_displayMessage _ _ _ s hs

theorem timersFresh_runChannel (P : Platform) :
    ∀ (es : List ChannelEvent) (s s1 : State), TimersFresh s → runChannel P es s = some s1 →
      TimersFresh s1 := by
  intro es
  induction es with
  | nil =>
    intro s s1 hs h
    simp only [runChannel, Option.some.injEq] at h
    subst h
    exact hs
  | cons e es ih =>
    intro s s1 hs h
    simp only [runChannel, Option.bind_eq_some] at h
    obtain ⟨s2, h2, h3⟩ := h
    exact ih s2 s1 (timersFresh_channelStep P e s s2 hs h2) h3

theorem timersFresh_init : TimersFresh State.init := by
  refine ⟨?_, ?_, ?_⟩
  · intro t ht; cases ht
  · intro i hi; cases hi
  · intro t ht; cases ht

end Channel

section Reconnect

theorem readyStateOf_setReadyState (ws : Nat) (r r0 : ReadyState) (s : State)
    (h : readyStateOf ws s = some r0) : readyStateOf ws (setReadyState ws r s) = some r := by
  unfold readyStateOf at h
  cases hk : s.sockets[ws]? with
  | none => simp [hk] at h
  | some k =>
    simp [setReadyState, readyStateOf, hk, List.getElem?_set_self']

theorem socketClose_of_open (ws : Nat) (r : ReadyState) (s : State)
    (h : readyStateOf ws s = some r) (hr : r ≠ ReadyState.closed) :
    socketClose ws s = some (onclose (setReadyState ws ReadyState.closed s)) := by
  simp [socketClose, h, hr]

theorem reconnect_socketClose (ws : Nat) (s : State) (hs : TimersFresh s) :
    reconnectTimers (onclose (setReadyState ws ReadyState.closed s))
      = reconnectTimers s ++ [reconnectTimer s] := by
  rw [reconnect_onclose _ (timersFresh_setReadyState ws _ s hs)]
  simp [reconnectTimers, reconnectTimer, (setReadyState_timers ws ReadyState.closed s).1,
    (setReadyState_timers ws ReadyState.closed s).2.1]

theorem displayMessage_sockets (m : String) (c : Option String) (t : Option Bool) (s : State) :
    (displayMessage m c t s).sockets = s.sockets ∧ (displayMessage m c t s).host = s.host := by
  rcases t with _ | _ | _ <;> cases h : s.messageTimer <;>
    simp [displayMessage, setTimeout, clearTimeout, h]

theorem readyStateOf_onerror (ws : Nat) (err : String) (r : ReadyState) (s : State)
    (h : readyStateOf ws s = some r) (hr : r ≠ ReadyState.closed) :
    readyStateOf ws (onerror ws err s) = some ReadyState.closing := by
  have hso : (displayError err s).sockets = s.sockets := (displayMessage_sockets _ _ _ s).1
  unfold readyStateOf at h
  cases hk : s.sockets[ws]? with
  | none => simp [hk] at h
  | some k =>
    have hkr : k.readyState = r := by simpa [hk] using h
    unfold onerror wsClose
    simp only [hso, hk]
    by_cases hc : k.readyState = ReadyState.closing
    · simp [hc, readyStateOf, hso, hk]
    · have hcl : k.readyState ≠ ReadyState.closed := by rw [hkr]; exact hr
      simp [hc, hcl, readyStateOf, hk, List.getElem?_set_self']

theorem reconnect_onerror (ws : Nat) (err : String) (s : State) (hs : TimersFresh s) :
    reconnectTimers (onerror ws err s) = reconnectTimers s := by
  have := reconnect_displayMessage err (some "red") (some true) s hs
  unfold reconnectTimers at *
  unfold onerror
  rw [(wsClose_timers ws _).1]
  exact this

theorem connectToWS_sockets (s : State) : (connectToWS s).sockets = s.sockets ++ [newSocket s] := by
  simp [connectToWS, newSocket, (displayMessage_sockets _ _ _ s).1, (displayMessage_sockets _ _ _ s).2]

theorem timeoutDue_reconnect (s1 : State) (t : Timer) (l : List Timer)
    (hl : s1.timers = l ++ [t]) (hlt : ∀ u ∈ l, u.id < t.id)
    (hc : t.callback = Callback.connectToWS) (hr : t.repeating = false) :
    timeoutDue t.id s1
      = some (connectToWS { s1 with timers := s1.timers.filter (fun u => u.id != t.id) }) := by
  have hf : s1.timers.find? (fun u => u.id == t.id) = some t := by
    rw [hl, List.find?_append]
    have : l.find? (fun u => u.id == t.id) = none := by
      rw [List.find?_eq_none]
      intro u hu
      have := hlt u hu
      simp
      omega
    simp [this]
  simp [timeoutDue, hf, hc, hr]

end Reconnect

section Failure

theorem errorShown_displayError (message : String) (s : State) :
    ErrorShown message s (displayError message s) := by
  obtain ⟨h1, h2, h3⟩ := displayMessage_armed message (some "red") s
  refine ⟨?_, ?_, h3, h1, h2⟩ <;>
    cases h : s.messageTimer <;> simp [displayError, displayMessage, setTimeout, clearTimeout, h]

theorem noticeOnly_displayError (message : String) (s : State) :
    NoticeOnly s (displayError message s) := by
  cases h : s.messageTimer <;>
    simp [NoticeOnly, displayError, displayMessage, setTimeout, clearTimeout, h] <;>
    rw [← h]

theorem failureHandled_displayError (message : String) (s : State) :
    FailureHandled message s (displayError message s) :=
  ⟨errorShown_displayError message s, noticeOnly_displayError message s⟩

theorem listFailureHandled_finish (message : String) (s : State) :
    ListFailureHandled message s
      (if (displayError message s).shouldSearch = true then
        loadMessageList { displayError message s with loading := false }
      else { displayError message s with loading := false }) := by
  have hE := errorShown_displayError message s
  have hN : _ = s := noticeOnly_displayError message s
  have hss : (displayError message s).shouldSearch = s.shouldSearch := by simp [displayError]
  have hsi : (displayError message s).searchInput = s.searchInput := by simp [displayError]
  refine ⟨?_, ?_, ?_⟩
  · by_cases h : (displayError message s).shouldSearch = true
    · rw [if_pos h, loadMessageList_idle _ rfl]; exact hE
    · rw [if_neg h]; exact hE
  · intro h0
    have h : ¬ (displayError message s).shouldSearch = true := by rw [hss, h0]; simp
    rw [if_neg h]
    refine ⟨rfl, ?_⟩
    unfold NoticeOnly
    conv_rhs => rw [← hN]
    simp [displayError]
  · intro h1
    have h : (displayError message s).shouldSearch = true := by rw [hss, h1]
    rw [if_pos h, loadMessageList_idle _ rfl]
    refine ⟨rfl, rfl, rfl, ?_, ?_⟩
    · simp [displayError, listRequest]
    · unfold NoticeOnly
      conv_rhs => rw [← hN]
      simp [displayError]

theorem listFailureHandled_fail (textStatus : String) (s : State) :
    ListFailureHandled ("Unable to pull messages: " ++ textStatus) s
      (loadMessageListFail textStatus s) :=
  listFailureHandled_finish _ s

end Failure

section Dismissal

theorem no_hide_in_clearedTimers (s : State) (hs : HideNamed s) (t : Timer)
    (ht : t ∈ clearedTimers s) : t.callback ≠ Callback.hideMessage := fun hc =>
  not_named_of_mem_clearedTimers s t ht (hs t (mem_clearedTimers s t ht) hc)

theorem hideTimers_clearedTimers (s : State) (hs : HideNamed s) :
    (clearedTimers s).filter (fun t => t.callback == Callback.hideMessage) = [] := by
  rw [List.filter_eq_nil_iff]
  intro t ht
  simpa using no_hide_in_clearedTimers s hs t ht

theorem hideNamed_of_timers (s s1 : State) (l : List Timer) (hs : HideNamed s)
    (h1 : s1.timers = clearedTimers s ++ l)
    (h2 : ∀ t ∈ l, t.callback = Callback.hideMessage → s1.messageTimer = some t.id) :
    HideNamed s1 := by
  intro t ht hc
  rw [h1, List.mem_append] at ht
  rcases ht with ht | ht
  · exact absurd hc (no_hide_in_clearedTimers s hs t ht)
  · exact h2 t ht hc

theorem hideNamed_displayMessage (m : String) (c : Option String) (t : Option Bool) (s : State)
    (hs : HideNamed s) : HideNamed (displayMessage m c t s) := by
  by_cases ht : t = some true
  · subst ht
    obtain ⟨h1, _, h3⟩ := displayMessage_armed m c s
    refine hideNamed_of_timers s _ [hideTimer s] hs h1 ?_
    intro u hu _
    simp only [List.mem_singleton] at hu
    subst hu
    exact h3
  · obtain ⟨h1, _, _⟩ := displayMessage_unarmed m c t s ht
    exact hideNamed_of_timers s _ [] hs (by simpa using h1) (by simp)

theorem hideNamed_congr (s s1 : State) (h1 : s1.timers = s.timers)
    (h3 : s1.messageTimer = s.messageTimer) (hs : HideNamed s) : HideNamed s1 := by
  unfold HideNamed at *
  rw [h1, h3]
  exact hs

theorem hideNamed_onclose (s : State) (hs : HideNamed s) : HideNamed (onclose s) := by
  refine hideNamed_of_timers s _ [reconnectTimer s] hs (onclose_timers s).1 ?_
  intro u hu hc
  simp only [List.mem_singleton] at hu
  subst hu
  simp [reconnectTimer] at hc

theorem hideTimers_onclose (s : State) (hs : HideNamed s) : hideTimers (onclose s) = [] := by
  unfold hideTimers
  rw [(onclose_timers s).1, List.filter_append, hideTimers_clearedTimers s hs]
  simp [reconnectTimer]

theorem hideNamed_hideMessage (s : State) (hs : HideNamed s) : HideNamed (hideMessage s) := by
  have h1 : (hideMessage s).timers = clearedTimers s := by
    cases h : s.messageTimer <;> simp [hideMessage, clearedTimers, clearTimeout, h]
  exact hideNamed_of_timers s _ [] hs (by simpa using h1) (by simp)

theorem hideNamed_drop (id : Nat) (s : State) (hs : HideNamed s) :
    HideNamed { s with timers := s.timers.filter (fun u => u.id != id) } := by
  intro u hu hc
  exact hs u (List.mem_filter.mp hu).1 hc

theorem hideNamed_onmessage (P : Platform) (data : String) (s : State) (hs : HideNamed s) :
    HideNamed (onmessage P data s).state := by
  rcases onmessage_cases P data s with h | h | h | ⟨_, _, h⟩ | ⟨_, h⟩ <;> rw [h]
  · exact hs
  · exact hideNamed_displayMessage _ _ _ s hs
  · exact hideNamed_congr s _ rfl rfl hs
  · exact hideNamed_congr s _ rfl rfl hs
  · exact hideNamed_congr s _ rfl rfl hs

theorem hideNamed_setReadyState (ws : Nat) (r : ReadyState) (s : State) (hs : HideNamed s) :
    HideNamed (setReadyState ws r s) :=
  hideNamed_congr s _ (setReadyState_timers ws r s).1 (setReadyState_timers ws r s).2.2 hs

theorem hideNamed_connectToWS (s : State) (hs : HideNamed s) : HideNamed (connectToWS s) :=
  hideNamed_congr (displayMessage "Connecting to websockets daemon" none none s) _ rfl rfl
    (hideNamed_displayMessage _ _ _ s hs)

theorem hideNamed_onerror (ws : Nat) (err : String) (s : State) (hs : HideNamed s) :
    HideNamed (onerror ws err s) :=
  hideNamed_congr (displayError err s) _ (wsClose_timers ws _).1 (wsClose_timers ws _).2.2
    (hideNamed_displayMessage _ _ _ s hs)

theorem hideNamed_channelStep (P : Platform) (e : ChannelEvent) (s s1 : State)
    (hs : HideNamed s) (h : channelStep P e s = some s1) : HideNamed s1 := by
  cases e with
  | connect =>
    simp only [channelStep, Option.some.injEq] at h
    subst h
    exact hideNamed_connectToWS s hs
  | timeoutDue id =>
    simp only [channelStep, timeoutDue] at h
    split at h
    · cases h
    · split_ifs at h
      split at h
      · simp only [Option.some.injEq] at h
        subst h
        exact hideNamed_hideMessage _ (hideNamed_drop id s hs)
      · simp only [Option.some.injEq] at h
        subst h
        exact hideNamed_connectToWS _ (hideNamed_drop id s hs)
      · cases h
  | socketOpen ws =>
    simp only [channelStep, socketOpen] at h
    split_ifs at h
    simp only [Option.some.injEq] at h
    subst h
    exact hideNamed_displayMessage _ _ _ _ (hideNamed_setReadyState ws _ s hs)
  | socketError ws err =>
    simp only [channelStep, socketError] at h
    split at h
    · cases h
    · split_ifs at h
      simp only [Option.some.injEq] at h
      subst h
      exact hideNamed_onerror ws err s hs
  | socketClose ws =>
    simp only [channelStep, socketClose] at h
    split at h
    · cases h
    · split_ifs at h
      simp only [Option.some.injEq] at h
      subst h
      exact hideNamed_onclose _ (hideNamed_setReadyState ws _ s hs)
  | socketMessage ws data =>
    simp only [channelStep, socketMessage] at h
    split_ifs at h
    simp only [Option.some.injEq] at h
    subst h
    exact hideNamed_onmessage P data s hs
  | notice message color timeout =>
    simp only [channelStep, Option.some.injEq] at h
    subst h
    exact hideNamed_displayMessage _ _ _ s hs

theorem hideNamed_runChannel (P : Platform) :
    ∀ (es : List ChannelEvent) (s s1 : State), HideNamed s → runChannel P es s = some s1 →
      HideNamed s1 := by
  intro es
  induction es with
  | nil =>
    intro s s1 hs h
    simp only [runChannel, Option.some.injEq] at h
    subst h
    exact hs
  | cons e es ih =>
    intro s s1 hs h
    simp only [runChannel, Option.bind_eq_some] at h
    obtain ⟨s2, h2, h3⟩ := h
    exact ih s2 s1 (hideNamed_channelStep P e s s2 hs h2) h3

theorem hideNamed_init : HideNamed State.init := by
  intro t ht
  cases ht

theorem wsClose_notice (ws : Nat) (s : State) :
    (wsClose ws s).notice = s.notice ∧ (wsClose ws s).console = s.console := by
  unfold wsClose
  split
  · exact ⟨rfl, rfl⟩
  · split_ifs <;> exact ⟨rfl, rfl⟩

theorem errorShown_onerror (ws : Nat) (err : String) (s : State) :
    ErrorShown err s (onerror ws err s) := by
  obtain ⟨h1, h2, h3, h4, h5⟩ := errorShown_displayError err s
  unfold onerror
  exact ⟨by rw [(wsClose_notice ws _).1, h1], by rw [(wsClose_notice ws _).2, h2],
    by rw [(wsClose_timers ws _).2.2, h3], by rw [(wsClose_timers ws _).1, h4],
    by rw [(wsClose_timers ws _).2.1, h5]⟩

theorem onclose_notice (s : State) :
    (onclose s).notice = { innerText := "Websockets connection closed",
                           backgroundColor := "cadetblue", display := "block" } := by
  cases h : s.messageTimer <;> simp [onclose, displayMessage, setTimeout, clearTimeout, h]

end Dismissal

section Messages

/-- The handler on a parsed message whose `type` is a string: the switch. -/
theorem onmessage_of_type (P : Platform) (data : String) (message : JsValue) (t : String)
    (s : State) (hp : P.jsonParse data = Except.ok message)
    (ht : message.getProp "type" = some (JsValue.str t)) :
    onmessage P data s =
      if t = "messageStatusesUpdated" then
        { state := { s with shouldRefresh := true }, threw := none }
      else if t = "receivedNewMessage" then
        { state := { s with shouldRefresh := true }, threw := none }
      else if t = "updateMessageCount" then
        match callToLocaleString P (message.getProp "msg") with
        | Except.error e => { state := s, threw := some e }
        | Except.ok text =>
          { state := { s with messageCount := text,
                              console := s.console ++ [ConsoleEntry.value message] },
            threw := none }
      else
        { state := { s with console := s.console ++ [ConsoleEntry.value message] },
          threw := none } := by
  cases message with
  | obj fields =>
    unfold onmessage
    simp only [hp, ht]
  | null => simp [JsValue.getProp] at ht
  | bool b => simp [JsValue.getProp] at ht
  | num n => simp [JsValue.getProp] at ht
  | str x => simp [JsValue.getProp] at ht
  | arr xs => simp [JsValue.getProp] at ht

theorem receiveAll_frame (P : Platform) :
    ∀ (payloads : List String) (s : State),
      (receiveAll P payloads s).loading = s.loading ∧
      (receiveAll P payloads s).requests = s.requests ∧
      (receiveAll P payloads s).searchInput = s.searchInput := by
  intro payloads
  induction payloads with
  | nil => intro s; exact ⟨rfl, rfl, rfl⟩
  | cons data rest ih =>
    intro s
    obtain ⟨h1, h2, h3⟩ := ih (onmessage P data s).state
    simp only [receiveAll]
    exact ⟨h1.trans (onmessage_loading P data s), h2.trans (onmessage_requests P data s),
      h3.trans (onmessage_searchInput P data s)⟩

theorem check_requests (s : State) :
    (checkIfRefreshNeeded s).requests = s.requests ∨
    (checkIfRefreshNeeded s).requests = s.requests ++ [listRequest s] := by
  unfold checkIfRefreshNeeded
  split_ifs
  · cases hl : s.loading with
    | true => rw [loadMessageList_busy s hl]; exact Or.inl rfl
    | false => rw [loadMessageList_idle s hl]; exact Or.inr rfl
  · exact Or.inl rfl

end Messages

section Logging

/-- What the handler does with the console for the message types other than
`updateMessageCount`: the two refresh types are not logged, and a message of any
other string type is logged and changes neither `shouldRefresh` nor the count. -/
theorem onmessage_console_of_type (P : Platform) (data : String) (message : JsValue) (t : String)
    (s : State) (hp : P.jsonParse data = Except.ok message)
    (ht : message.getProp "type" = some (JsValue.str t)) :
    ((t = "messageStatusesUpdated" ∨ t = "receivedNewMessage") →
      (onmessage P data s).state.console = s.console) ∧
    (t ≠ "messageStatusesUpdated" → t ≠ "receivedNewMessage" → t ≠ "updateMessageCount" →
      (onmessage P data s).state.console = s.console ++ [ConsoleEntry.value message] ∧
      (onmessage P data s).state.shouldRefresh = s.shouldRefresh ∧
      (onmessage P data s).state.messageCount = s.messageCount) := by
  rw [onmessage_of_type P data message t s hp ht]
  constructor
  · rintro (h | h)
    · simp [h]
    · subst h
      simp
  · intro h1 h2 h3
    simp [h1, h2, h3]

end Logging

section Returns

theorem appendRows_threw (L : Library) :
    ∀ (messages : List Message) (s : State), (∀ m ∈ messages, L.renderError m = none) →
      (appendRows L messages s).threw = none := by
  intro messages
  induction messages with
  | nil => intro s _; rfl
  | cons m rest ih =>
    intro s h
    unfold appendRows
    rw [h m (List.mem_cons_self m rest)]
    exact ih _ (fun x hx => h x (List.mem_cons_of_mem m hx))

theorem activateSelected_threw (L : Library) (s : State)
    (h : ∀ sel, s.selectedMessage = some sel → L.selectorError ("#" ++ sel.uuid) = none) :
    (activateSelected L s).threw = none := by
  unfold activateSelected
  split
  · rfl
  · rename_i sel hsel
    rw [h sel hsel]

theorem done_returns (L : Library) (data : ListResponse) (s : State)
    (h : data.status = some "error" ∨ Renders L data s) :
    (loadMessageListDone L data s).threw = none := by
  by_cases he : data.status = some "error"
  · rw [done_error L data s he]
  · rcases h with h | ⟨messages, hm, hrows, hsel⟩
    · exact absurd h he
    · obtain ⟨rows, hr⟩ := appendRows_frame L messages { s with messageList := [] }
      have h1 := appendRows_threw L messages { s with messageList := [] } hrows
      have h2 : (activateSelected L (appendRows L messages { s with messageList := [] }).state).threw
          = none := by
        apply activateSelected_threw
        intro sel hs
        rw [hr] at hs
        exact hsel sel hs
      unfold loadMessageListDone
      simp only [he, if_false, hm, h1, h2]

theorem done_returned (L : Library) (data : ListResponse) (s : State)
    (h : (loadMessageListDone L data s).threw = none) :
    ∃ s1, SameLoader s s1 ∧ (loadMessageListDone L data s).state = finishLoad s1 := by
  obtain ⟨s1, hs, hc⟩ := done_cases L data s
  rcases hc with ⟨h1, _⟩ | ⟨_, h2⟩
  · exact absurd h h1
  · exact ⟨s1, hs, h2⟩

theorem finishLoad_same_of_search (s s1 : State) (hs : SameLoader s s1)
    (h : s.shouldSearch = true) :
    (finishLoad s1).requests = s.requests ++ [listRequest s] ∧
    (finishLoad s1).shouldSearch = false ∧
    (finishLoad s1).shouldRefresh = false ∧
    (finishLoad s1).loading = true := by
  obtain ⟨_, h2, _, h4, h5⟩ := hs
  obtain ⟨k1, k2, k3, k4⟩ := finishLoad_of_search s1 (h2.trans h)
  exact ⟨by rw [k1, h4, listRequest_congr s s1 h5], k2, k3, k4⟩

theorem finishLoad_same_of_no_search (s s1 : State) (hs : SameLoader s s1)
    (h : s.shouldSearch = false) :
    (finishLoad s1).requests = s.requests ∧
    (finishLoad s1).shouldSearch = false ∧
    (finishLoad s1).shouldRefresh = s.shouldRefresh ∧
    (finishLoad s1).loading = false := by
  obtain ⟨_, h2, h3, h4, _⟩ := hs
  obtain ⟨k1, k2, k3, k4⟩ := finishLoad_of_no_search s1 (h2.trans h)
  exact ⟨k1.trans h4, k2, k3.trans h3, k4⟩

theorem done_requests_of_no_search (L : Library) (data : ListResponse) (s : State)
    (h : s.shouldSearch = false) : (loadMessageListDone L data s).state.requests = s.requests := by
  obtain ⟨s1, hs, hc⟩ := done_cases L data s
  rcases hc with ⟨_, h2⟩ | ⟨_, h2⟩
  · rw [h2]; exact hs.2.2.2.1
  · rw [h2]; exact (finishLoad_same_of_no_search s s1 hs h).1

/-- While a fetch is in flight and a refresh is pending, an event that is not a
completion keeps both so and sends nothing. -/
theorem pending_refresh_step (P : Platform) (L : Library) (e : Event) (s : State)
    (he : e.isCompletion = false) (hl : s.loading = true) (hf : s.shouldRefresh = true) :
    ∃ s1, step P L e s = some s1 ∧ s1.loading = true ∧ s1.shouldRefresh = true ∧
      s1.requests = s.requests ∧ s1.searchInput = s.searchInput := by
  cases e with
  | loadMessageList =>
    exact ⟨s, by simp [step, stepOutcome, loadMessageList_busy s hl], hl, hf, rfl, rfl⟩
  | handleSearchInput =>
    exact ⟨{ s with shouldSearch := true }, by simp [step, stepOutcome, handleSearchInput, hl],
      hl, hf, rfl, rfl⟩
  | checkIfRefreshNeeded =>
    exact ⟨s, by simp [step, stepOutcome, checkIfRefreshNeeded, hf, loadMessageList_busy s hl],
      hl, hf, rfl, rfl⟩
  | channelMessage data =>
    exact ⟨(onmessage P data s).state, rfl, by rw [onmessage_loading, hl],
      onmessage_shouldRefresh_of_set P data s hf, onmessage_requests P data s,
      onmessage_searchInput P data s⟩
  | minuteTick =>
    exact ⟨forceRefresh s, rfl, hl, rfl, rfl, rfl⟩
  | done i data => simp [Event.isCompletion] at he
  | fail i textStatus => simp [Event.isCompletion] at he

theorem pending_refresh_run (P : Platform) (L : Library) :
    ∀ (es : List Event) (s : State), (∀ e ∈ es, e.isCompletion = false) →
      s.loading = true → s.shouldRefresh = true →
      ∃ s1, runEvents P L es s = some s1 ∧ s1.loading = true ∧ s1.shouldRefresh = true ∧
        s1.requests = s.requests ∧ s1.searchInput = s.searchInput := by
  intro es
  induction es with
  | nil => intro s _ hl hf; exact ⟨s, rfl, hl, hf, rfl, rfl⟩
  | cons e es ih =>
    intro s hes hl hf
    obtain ⟨s1, h1, hl1, hf1, hq1, hi1⟩ :=
      pending_refresh_step P L e s (hes e (List.mem_cons_self e es)) hl hf
    obtain ⟨s2, h2, hl2, hf2, hq2, hi2⟩ :=
      ih s1 (fun x hx => hes x (List.mem_cons_of_mem e hx)) hl1 hf1
    exact ⟨s2, by simp [runEvents, h1, h2], hl2, hf2, hq2.trans hq1, hi2.trans hi1⟩

theorem listFailureHandled_done (L : Library) (data : ListResponse) (s : State)
    (h : data.status = some "error") :
    ListFailureHandled ("Unable to pull messages: " ++ data.error) s
      (loadMessageListDone L data s).state := by
  rw [done_error L data s h]
  exact listFailureHandled_finish ("Unable to pull messages: " ++ data.error) s

end Returns

/-! ## Claims -/

/-- C1 as stated fails: the first list fetch of the script is answered by a success
response without a message list; the callback ends with an exception before it
resets `loading`, so the state reached has `loading` true and no list fetch in
flight. -/
theorem loading_stuck_after_failed_rendering :
    runEvents examplePlatform exampleLibrary
        [Event.loadMessageList, Event.done 0 exampleNoMessages] State.init = some exampleStuck ∧
    exampleStuck.loading = true ∧ listInFlight exampleStuck = 0 ∧
    ¬ (exampleStuck.loading = true ↔ listInFlight exampleStuck = 1) :=
  ⟨rfl, rfl, rfl, by decide⟩

/-- C1, amended.  From a state with `loading` false and no list fetch in flight (the
initial state of the script is one), every state the list loader reaches by its
steps (loadMessageList, handleSearchInput, checkIfRefreshNeeded, a channel
message, the one-minute tick, and the completion of a request by success, by a
response with status "error" or by transport failure) has at most one
`/api/message_log` request in flight, and `loading` is true whenever one is in
flight; when no completion callback of the run ended with an exception,
`loading` is true exactly when one is in flight. -/
theorem list_loader_one_in_flight (P : Platform) (L : Library) (s0 s : State)
    (es : List Event) (h0 : s0.loading = false) (hq : listInFlight s0 = 0)
    (hrun : runEvents P L es s0 = some s) :
    listInFlight s ≤ 1 ∧ (listInFlight s = 1 → s.loading = true) ∧
    (completionsReturn P L es s0 = true → (s.loading = true ↔ listInFlight s = 1)) := by
  have hs := singleFlight_of_idle s0 h0 hq
  have h1 := atMostOne_run P L es s0 s (atMostOne_of_singleFlight s0 hs) hrun
  exact ⟨h1.1, h1.2, fun hc => (singleFlight_run P L es s0 s hs hrun hc).2⟩

/-- C1 amended, at an instance: the script starts a fetch, a search input arrives
during it, and the fetch is answered by an empty message list. -/
theorem list_loader_one_in_flight_witness :
    State.init.loading = false ∧ listInFlight State.init = 0 ∧
    runEvents examplePlatform exampleLibrary exampleRun State.init = some exampleReloaded ∧
    completionsReturn examplePlatform exampleLibrary exampleRun State.init = true ∧
    (exampleReloaded.loading = true ↔ listInFlight exampleReloaded = 1) :=
  ⟨rfl, rfl, rfl, rfl,
    (list_loader_one_in_flight examplePlatform exampleLibrary State.init exampleReloaded
      exampleRun rfl rfl rfl).2.2 rfl⟩

/-- C2 as stated fails: a search input arrived during the fetch and the message with
the empty `uuid` is selected; the success callback ends with the exception of
jQuery on the selector `#`, so no new list fetch is started and `shouldSearch`
and `loading` stay true. -/
theorem failed_rendering_starts_no_fetch :
    exampleSelected.loading = true ∧ exampleSelected.shouldSearch = true ∧
    listInFlight exampleSelected = 1 ∧
    (stepOutcome examplePlatform exampleLibrary (Event.done 0 exampleEmptyList)
        exampleSelected).map
      (fun o => (o.threw, o.state.requests, o.state.shouldSearch, o.state.loading))
      = some (some "Error: Syntax error, unrecognized expression: #", [], true, true) := by
  decide

/-- C2, amended.  While a list fetch is in flight (`loading` is true and request `i` is
a list fetch), each of `n >= 1` calls of handleSearchInput only sets shouldSearch
and issues no request.  The completion of the fetch happens; a response with
status "error", a transport failure, and a success response that is rendered
without an exception end normally, and on a completion that ends normally
exactly one new list fetch is added to the requests in flight and shouldSearch
is false afterwards.  When shouldSearch is false at completion, the completion
adds no request, and ending normally it leaves `loading` false: a failed fetch
is not retried. -/
theorem search_during_fetch_refetches_once (P : Platform) (L : Library) (n : Nat) (hn : 1 ≤ n)
    (s : State) (i : Nat) (r : Request) (hl : s.loading = true)
    (hi : s.requests[i]? = some r) (hr : isListRequest r = true) :
    (∀ k, k < n → handleSearchInput (handleSearchInput^[k] s)
        = { handleSearchInput^[k] s with shouldSearch := true }) ∧
    handleSearchInput^[n] s = { s with shouldSearch := true } ∧
    (handleSearchInput^[n] s).requests = s.requests ∧
    (∀ data, ∃ o, stepOutcome P L (Event.done i data) (handleSearchInput^[n] s) = some o ∧
      ((data.status = some "error" ∨ Renders L data s) → o.threw = none) ∧
      (o.threw = none →
        o.state.requests = s.requests.eraseIdx i ++ [listRequest s] ∧
        o.state.shouldSearch = false ∧ o.state.loading = true)) ∧
    (∀ textStatus, ∃ s1, step P L (Event.fail i textStatus) (handleSearchInput^[n] s) = some s1 ∧
      s1.requests = s.requests.eraseIdx i ++ [listRequest s] ∧
      s1.shouldSearch = false ∧ s1.loading = true) ∧
    (s.shouldSearch = false →
      (∀ data, ∃ o, stepOutcome P L (Event.done i data) s = some o ∧
        ((data.status = some "error" ∨ Renders L data s) → o.threw = none) ∧
        o.state.requests = s.requests.eraseIdx i ∧
        (o.threw = none → o.state.shouldSearch = false ∧ o.state.loading = false)) ∧
      (∀ textStatus, ∃ s1, step P L (Event.fail i textStatus) s = some s1 ∧
        s1.requests = s.requests.eraseIdx i ∧ s1.shouldSearch = false ∧ s1.loading = false)) := by
  have hit := iterate_handleSearchInput s hl
  have hcs : completeRequest i { s with shouldSearch := true }
      = some { s with shouldSearch := true, requests := s.requests.eraseIdx i } :=
    completeRequest_of_list i { s with shouldSearch := true } r hi hr
  have hc := completeRequest_of_list i s r hi hr
  refine ⟨?_, hit n hn, ?_, ?_, ?_, ?_⟩
  · intro k _
    have hk : (handleSearchInput^[k] s).loading = true := by
      rcases Nat.eq_zero_or_pos k with h0 | h0
      · subst h0; simpa using hl
      · rw [hit k h0]; exact hl
    simp [handleSearchInput, hk]
  · rw [hit n hn]
  · intro data
    rw [hit n hn]
    refine ⟨loadMessageListDone L data
        { s with shouldSearch := true, requests := s.requests.eraseIdx i },
      by simp only [stepOutcome, hcs, Option.map_some'], ?_, ?_⟩
    · intro h
      exact done_returns L data _ h
    · intro h
      obtain ⟨s1, hs, h2⟩ := done_returned L data _ h
      rw [h2]
      have k := finishLoad_same_of_search _ s1 hs rfl
      exact ⟨k.1, k.2.1, k.2.2.2⟩
  · intro textStatus
    rw [hit n hn]
    have h := fail_of_search textStatus
      { s with shouldSearch := true, requests := s.requests.eraseIdx i } rfl
    exact ⟨_, by simp only [step, stepOutcome, hcs, Option.map_some'], h.1, h.2.1, h.2.2.2⟩
  · intro hss
    constructor
    · intro data
      refine ⟨loadMessageListDone L data { s with requests := s.requests.eraseIdx i },
        by simp only [stepOutcome, hc, Option.map_some'], ?_, ?_, ?_⟩
      · intro h
        exact done_returns L data _ h
      · exact done_requests_of_no_search L data { s with requests := s.requests.eraseIdx i } hss
      · intro h
        obtain ⟨s1, hs, h2⟩ := done_returned L data _ h
        rw [h2]
        have k := finishLoad_same_of_no_search _ s1 hs hss
        exact ⟨k.2.1, k.2.2.2⟩
    · intro textStatus
      have h := fail_of_no_search textStatus { s with requests := s.requests.eraseIdx i } hss
      exact ⟨_, by simp only [step, stepOutcome, hc, Option.map_some'], h.1, h.2.1, h.2.2.2⟩

/-- C2 amended, at an instance: three search inputs during the first fetch of the
script. -/
theorem search_during_fetch_refetches_once_witness :
    1 ≤ 3 ∧ (loadMessageList State.init).loading = true ∧
    (loadMessageList State.init).requests[0]? = some (listRequest State.init) ∧
    isListRequest (listRequest State.init) = true ∧
    handleSearchInput^[3] (loadMessageList State.init)
      = { loadMessageList State.init with shouldSearch := true } :=
  ⟨by decide, rfl, rfl, rfl,
    (search_during_fetch_refetches_once examplePlatform exampleLibrary 3 (by decide)
      (loadMessageList State.init) 0 (listRequest State.init) rfl rfl rfl).2.1⟩

/-- C3 as stated fails: the one-minute timer fired during the first fetch of the
script and the fetch is answered by a success response without a message list;
the callback ends with an exception, `loading` stays true with `shouldRefresh`
still set, and the next checkIfRefreshNeeded tick starts no fetch: the refresh
is dropped. -/
theorem failed_rendering_drops_refresh :
    exampleRefreshing.loading = true ∧ exampleRefreshing.shouldRefresh = true ∧
    listInFlight exampleRefreshing = 1 ∧
    (stepOutcome examplePlatform exampleLibrary (Event.done 0 exampleNoMessages)
        exampleRefreshing).map
      (fun o => (o.threw.isSome, o.state.shouldRefresh, o.state.loading,
        (checkIfRefreshNeeded o.state).requests))
      = some (true, true, true, []) := by
  decide

/-- C3, amended.  Let a list fetch be in flight (`loading` true, request `i` a list
fetch) and a refresh be requested (shouldRefresh true, as a channel event or the
one-minute timer sets it).  A checkIfRefreshNeeded tick issues no request and
leaves shouldRefresh true.  Whatever events other than a completion follow (any
number of further refresh requests, ticks, search inputs), shouldRefresh is
still true when the fetch completes and nothing was sent.  The completion
happens; a response with status "error", a transport failure, and a success
response that is rendered without an exception end normally.  On a completion
that ends normally: when a search is pending it starts exactly one list fetch
and shouldRefresh is false afterwards; otherwise it starts none and leaves
shouldRefresh true, the next checkIfRefreshNeeded tick starts exactly one list
fetch and clears shouldRefresh, and a further tick starts nothing. -/
theorem refresh_during_fetch_deferred (P : Platform) (L : Library) (s : State) (i : Nat)
    (r : Request) (es : List Event) (c : Event)
    (hl : s.loading = true) (hf : s.shouldRefresh = true)
    (hi : s.requests[i]? = some r) (hr : isListRequest r = true)
    (hes : ∀ e ∈ es, e.isCompletion = false) (hc : c.completes i = true) :
    checkIfRefreshNeeded s = s ∧
    ∃ s1, runEvents P L es s = some s1 ∧ s1.loading = true ∧ s1.shouldRefresh = true ∧
      s1.requests = s.requests ∧
      ∃ o, stepOutcome P L c s1 = some o ∧
        (c.isFailure = true → o.threw = none) ∧
        (∀ j data, c = Event.done j data → Renders L data s1 → o.threw = none) ∧
        (o.threw = none →
          (s1.shouldSearch = true →
            o.state.requests = s.requests.eraseIdx i ++ [listRequest s] ∧
            o.state.shouldRefresh = false ∧ o.state.loading = true ∧
            checkIfRefreshNeeded o.state = o.state) ∧
          (s1.shouldSearch = false →
            o.state.requests = s.requests.eraseIdx i ∧ o.state.shouldRefresh = true ∧
            o.state.loading = false ∧
            (checkIfRefreshNeeded o.state).requests
              = s.requests.eraseIdx i ++ [listRequest s] ∧
            (checkIfRefreshNeeded o.state).shouldRefresh = false ∧
            (checkIfRefreshNeeded o.state).loading = true ∧
            checkIfRefreshNeeded (checkIfRefreshNeeded o.state)
              = checkIfRefreshNeeded o.state)) := by
  refine ⟨check_busy s hl, ?_⟩
  obtain ⟨s1, h1, hl1, hf1, hq1, hin1⟩ := pending_refresh_run P L es s hes hl hf
  refine ⟨s1, h1, hl1, hf1, hq1, ?_⟩
  have hcr : completeRequest i s1 = some { s1 with requests := s1.requests.eraseIdx i } :=
    completeRequest_of_list i s1 r (by rw [hq1]; exact hi) hr
  cases c with
  | done j data =>
    have hj : j = i := by simpa [Event.completes] using hc
    subst hj
    refine ⟨loadMessageListDone L data { s1 with requests := s1.requests.eraseIdx j },
      by simp only [stepOutcome, hcr, Option.map_some'], ?_, ?_, ?_⟩
    · intro hfail
      have : data.status = some "error" := by simpa [Event.isFailure] using hfail
      exact done_returns L data _ (Or.inl this)
    · intro k data1 hk hren
      injection hk with _ hd
      subst hd
      exact done_returns L data _ (Or.inr hren)
    · intro hret
      obtain ⟨s2, hs, h2⟩ := done_returned L data _ hret
      rw [h2]
      exact deferred_after_completion s { s1 with requests := s1.requests.eraseIdx j } _
        (s.requests.eraseIdx j) hf1 hin1 (by simp [hq1])
        ((finishLoad_searchInput s2).trans hs.2.2.2.2)
        (finishLoad_same_of_search _ s2 hs) (finishLoad_same_of_no_search _ s2 hs)
  | fail j textStatus =>
    have hj : j = i := by simpa [Event.completes] using hc
    subst hj
    refine ⟨{ state := loadMessageListFail textStatus
                { s1 with requests := s1.requests.eraseIdx j }, threw := none },
      by simp only [stepOutcome, hcr, Option.map_some'], fun _ => rfl, ?_, ?_⟩
    · intro k data hk
      cases hk
    · intro _
      exact deferred_after_completion s { s1 with requests := s1.requests.eraseIdx j } _
        (s.requests.eraseIdx j) hf1 hin1 (by simp [hq1]) (fail_searchInput textStatus _)
        (fail_of_search textStatus _) (fail_of_no_search textStatus _)
  | loadMessageList => simp [Event.completes] at hc
  | handleSearchInput => simp [Event.completes] at hc
  | checkIfRefreshNeeded => simp [Event.completes] at hc
  | channelMessage data => simp [Event.completes] at hc
  | minuteTick => simp [Event.completes] at hc

/-- C3 amended, at an instance: the one-minute timer fires during the first fetch of
the script, the events of `exampleWindow` follow, and the fetch fails in
transport. -/
theorem refresh_during_fetch_deferred_witness :
    exampleRefreshing.loading = true ∧
    exampleRefreshing.shouldRefresh = true ∧
    exampleRefreshing.requests[0]? = some (listRequest State.init) ∧
    isListRequest (listRequest State.init) = true ∧
    (∀ e ∈ exampleWindow, e.isCompletion = false) ∧
    (Event.fail 0 "timeout").completes 0 = true ∧
    checkIfRefreshNeeded exampleRefreshing = exampleRefreshing :=
  ⟨rfl, rfl, rfl, rfl, by simp [exampleWindow, Event.isCompletion], rfl,
    (refresh_during_fetch_deferred examplePlatform exampleLibrary exampleRefreshing 0
      (listRequest State.init) exampleWindow (Event.fail 0 "timeout") rfl rfl rfl rfl
      (by simp [exampleWindow, Event.isCompletion]) rfl).1⟩

/-- C4.  In every state the channel machine reaches from a state with consistent
timers (the initial state is one), whatever events came before, the closure of
a socket that is not yet closed happens and adds exactly one pending call of
connectToWS, a timeout of 5000 ms; when that timeout comes due, connectToWS
runs and creates the next socket.  An error event on the socket schedules
nothing itself and leaves the socket closing, and the closure that follows
adds the same single timeout of 5000 ms. -/
theorem closure_schedules_one_reconnect (P : Platform) (s0 s : State) (es : List ChannelEvent)
    (ws : Nat) (r : ReadyState)
    (h0 : TimersFresh s0) (hrun : runChannel P es s0 = some s)
    (hws : readyStateOf ws s = some r) (hr : r ≠ ReadyState.closed) :
    (∃ s1, channelStep P (ChannelEvent.socketClose ws) s = some s1 ∧
      reconnectTimers s1 = reconnectTimers s ++
        [{ id := s.nextTimerId, callback := Callback.connectToWS, delay := 5000, repeating := false }] ∧
      ∃ s2, channelStep P (ChannelEvent.timeoutDue s.nextTimerId) s1 = some s2 ∧
        s2.sockets = s1.sockets ++ [newSocket s1]) ∧
    (∀ err, ∃ s1, channelStep P (ChannelEvent.socketError ws err) s = some s1 ∧
      reconnectTimers s1 = reconnectTimers s ∧
      readyStateOf ws s1 = some ReadyState.closing ∧
      ∃ s2, channelStep P (ChannelEvent.socketClose ws) s1 = some s2 ∧
        reconnectTimers s2 = reconnectTimers s ++
          [{ id := s1.nextTimerId, callback := Callback.connectToWS, delay := 5000,
             repeating := false }]) := by
  have hs : TimersFresh s := timersFresh_runChannel P es s0 s h0 hrun
  constructor
  · refine ⟨onclose (setReadyState ws ReadyState.closed s), socketClose_of_open ws r s hws hr,
      reconnect_socketClose ws s hs, ?_⟩
    have hc := setReadyState_timers ws ReadyState.closed s
    have hsc := timersFresh_setReadyState ws ReadyState.closed s hs
    have ht := (onclose_timers (setReadyState ws ReadyState.closed s)).1
    have hdue := timeoutDue_reconnect (onclose (setReadyState ws ReadyState.closed s))
      (reconnectTimer (setReadyState ws ReadyState.closed s)) _ ht
      (fun u hu => hsc.1 u (mem_clearedTimers _ u hu)) rfl rfl
    have hid : (reconnectTimer (setReadyState ws ReadyState.closed s)).id = s.nextTimerId := hc.2.1
    rw [hid] at hdue
    refine ⟨_, hdue, ?_⟩
    rw [connectToWS_sockets]
    rfl
  · intro err
    have hcl := readyStateOf_onerror ws err r s hws hr
    have hse : TimersFresh (onerror ws err s) := timersFresh_onerror ws err s hs
    refine ⟨onerror ws err s, by simp [channelStep, socketError, hws, hr],
      reconnect_onerror ws err s hs, hcl, ?_⟩
    refine ⟨onclose (setReadyState ws ReadyState.closed (onerror ws err s)),
      socketClose_of_open ws ReadyState.closing _ hcl (by decide), ?_⟩
    rw [reconnect_socketClose ws _ hse, reconnect_onerror ws err s hs]
    rfl

/-- C4, at an instance: the first socket of the script has opened and then closes. -/
theorem closure_schedules_one_reconnect_witness :
    TimersFresh State.init ∧
    runChannel examplePlatform [ChannelEvent.connect, ChannelEvent.socketOpen 0] State.init
      = some exampleConnected ∧
    readyStateOf 0 exampleConnected = some ReadyState.opened ∧
    ReadyState.opened ≠ ReadyState.closed ∧
    ∃ s1, channelStep examplePlatform (ChannelEvent.socketClose 0) exampleConnected = some s1 ∧
      reconnectTimers s1 = reconnectTimers exampleConnected ++
        [{ id := exampleConnected.nextTimerId, callback := Callback.connectToWS, delay := 5000,
           repeating := false }] ∧
      ∃ s2, channelStep examplePlatform (ChannelEvent.timeoutDue exampleConnected.nextTimerId) s1
          = some s2 ∧
        s2.sockets = s1.sockets ++ [newSocket s1] :=
  ⟨timersFresh_init, rfl, rfl, by decide,
    (closure_schedules_one_reconnect examplePlatform State.init exampleConnected
      [ChannelEvent.connect, ChannelEvent.socketOpen 0] 0 ReadyState.opened
      timersFresh_init rfl rfl (by decide)).1⟩

/-- C5 as stated fails for the list loader: when a search input arrived during the
fetch, the transport failure changes more than the notice, its timer and
`loading` (it clears `shouldSearch` and sends a new request). -/
theorem list_failure_changes_more_than_notice :
    ¬ NoticeOnly exampleSearching
        { loadMessageListFail "timeout" exampleSearching with
            loading := exampleSearching.loading } := by
  intro h
  exact absurd (congrArg State.shouldSearch h) (by decide)

/-- C5, amended.  For each of the six AJAX requests, the response with an error
status and the transport failure both end in displayError: the notice is shown
in red and logged, and `messageTimer` names a newly armed hide timer of 5000 ms.
For the five requests other than the list fetch nothing else changes.  The
list fetch also clears `loading`, and when a search input is pending it starts
a new list fetch besides (`loading` set again, `shouldSearch` and
`shouldRefresh` cleared, one request sent). -/
theorem ajax_failures_show_notice (P : Platform) (L : Library) (s : State) :
    (∀ data : ConfigResponse,
      FailureHandled ("Unable to load configuration: " ++ data.error) s
        (loadConfigDone P { data with status := some "error" } s).state ∧
      (loadConfigDone P { data with status := some "error" } s).threw = none) ∧
    (∀ textStatus,
      FailureHandled ("Unable to load configuration: " ++ textStatus) s
        (loadConfigFail textStatus s)) ∧
    (∀ data : ListResponse,
      ListFailureHandled ("Unable to pull messages: " ++ data.error) s
        (loadMessageListDone L { data with status := some "error" } s).state ∧
      (loadMessageListDone L { data with status := some "error" } s).threw = none) ∧
    (∀ textStatus,
      ListFailureHandled ("Unable to pull messages: " ++ textStatus) s
        (loadMessageListFail textStatus s)) ∧
    (∀ data : MessageResponse,
      FailureHandled ("Unable to pull message: " ++ data.error) s
        (loadMessageDone { data with status := some "error" } s)) ∧
    (∀ textStatus,
      FailureHandled ("Unable to pull message: " ++ textStatus) s (loadMessageFail textStatus s)) ∧
    (∀ status error,
      FailureHandled ("Unable to pull message: " ++ error) s
        (handleSourceSelectionDone (SourceResponse.object (some status) error) s)) ∧
    (∀ textStatus,
      FailureHandled ("Unable to pull message: " ++ textStatus) s
        (handleSourceSelectionFail textStatus s)) ∧
    (∀ data : LearnResponse,
      FailureHandled ("Unable to report ham: " ++ data.error) s
        (learnHamDone { data with status := some "error" } s)) ∧
    (∀ textStatus,
      FailureHandled ("Unable to report ham: " ++ textStatus) s (learnHamFail textStatus s)) ∧
    (∀ data : LearnResponse,
      FailureHandled ("Unable to report spam: " ++ data.error) s
        (learnSpamDone { data with status := some "error" } s)) ∧
    (∀ textStatus,
      FailureHandled ("Unable to report spam: " ++ textStatus) s (learnSpamFail textStatus s)) := by
  refine ⟨?_, ?_, ?_, ?_, ?_, ?_, ?_, ?_, ?_, ?_, ?_, ?_⟩
  · intro data
    simp only [loadConfigDone, if_true]
    exact ⟨failureHandled_displayError _ s, trivial⟩
  · intro textStatus
    exact failureHandled_displayError _ s
  · intro data
    exact ⟨listFailureHandled_done L { data with status := some "error" } s rfl,
      done_returns L { data with status := some "error" } s (Or.inl rfl)⟩
  · intro textStatus
    exact listFailureHandled_fail textStatus s
  · intro data
    simp only [loadMessageDone, if_true]
    exact failureHandled_displayError _ s
  · intro textStatus
    exact failureHandled_displayError _ s
  · intro status error
    exact failureHandled_displayError _ s
  · intro textStatus
    exact failureHandled_displayError _ s
  · intro data
    simp only [learnHamDone, if_true]
    exact failureHandled_displayError _ s
  · intro textStatus
    exact failureHandled_displayError _ s
  · intro data
    simp only [learnSpamDone, if_true]
    exact failureHandled_displayError _ s
  · intro textStatus
    exact failureHandled_displayError _ s

/-- C6, what the code does: on a payload that `JSON.parse` rejects, the handler
`onmessage` ends with the exception `JSON.parse` throws and leaves the state as
it was; no notice is shown. -/
theorem onmessage_malformed_payload_throws (P : Platform) (data e : String) (s : State)
    (h : P.jsonParse data = Except.error e) :
    (onmessage P data s).threw = some e ∧ (onmessage P data s).state = s := by
  simp [onmessage, h]

/-- C6, at an instance: the payload is a single opening brace. -/
theorem onmessage_malformed_payload_throws_witness :
    examplePlatform.jsonParse "\x7b"
      = Except.error "SyntaxError: JSON.parse: unexpected end of data" ∧
    (onmessage examplePlatform "\x7b" State.init).threw
      = some "SyntaxError: JSON.parse: unexpected end of data" ∧
    (onmessage examplePlatform "\x7b" State.init).state = State.init :=
  ⟨rfl, onmessage_malformed_payload_throws examplePlatform "\x7b"
    "SyntaxError: JSON.parse: unexpected end of data" State.init rfl⟩

/-- C7 as stated fails: after the first socket of the script has opened and closed,
the notice "Websockets connection closed" is on screen and no hide timer is
pending (the one armed by the "Connected" notice was cleared). -/
theorem close_notice_leaves_no_hide_timer :
    hideTimers exampleConnected ≠ [] ∧
    (onclose (setReadyState 0 ReadyState.closed exampleConnected)).notice.display = "block" ∧
    hideTimers (onclose (setReadyState 0 ReadyState.closed exampleConnected)) = [] := by
  decide

/-- C7, amended.  In every state the channel machine reaches from a state whose
pending hide timer, if any, is the one `messageTimer` names (the initial state
is one), the onclose handler leaves the notice "Websockets connection closed"
visible with no hide timer pending: the notice is not auto-dismissing.  The
notice raised by the error handler is: after `onerror`, `messageTimer` names a
newly armed hide timer of 5000 ms. -/
theorem close_notice_not_dismissed (P : Platform) (s0 s : State) (es : List ChannelEvent)
    (h0 : HideNamed s0) (hrun : runChannel P es s0 = some s) (ws : Nat) :
    (onclose (setReadyState ws ReadyState.closed s)).notice
      = { innerText := "Websockets connection closed", backgroundColor := "cadetblue",
          display := "block" } ∧
    hideTimers (onclose (setReadyState ws ReadyState.closed s)) = [] ∧
    ∀ err, ErrorShown err s (onerror ws err s) :=
  ⟨onclose_notice _,
    hideTimers_onclose _ (hideNamed_setReadyState ws _ s (hideNamed_runChannel P es s0 s h0 hrun)),
    fun err => errorShown_onerror ws err s⟩

/-- C7 amended, at an instance: the first socket of the script has opened. -/
theorem close_notice_not_dismissed_witness :
    HideNamed State.init ∧
    runChannel examplePlatform [ChannelEvent.connect, ChannelEvent.socketOpen 0] State.init
      = some exampleConnected ∧
    hideTimers (onclose (setReadyState 0 ReadyState.closed exampleConnected)) = [] :=
  ⟨hideNamed_init, rfl,
    (close_notice_not_dismissed examplePlatform State.init exampleConnected
      [ChannelEvent.connect, ChannelEvent.socketOpen 0] hideNamed_init rfl 0).2.1⟩

/-- C8, what the code does: without WebSocket support the ready handler shows its
notice and returns; no request is sent, the only pending timer is the hide
timer of the notice, and no handler is registered.  With WebSocket support the
list fetch is sent and both intervals are registered. -/
theorem ready_without_websocket_sets_up_nothing :
    (ready false State.init).requests = [] ∧
    (ready false State.init).timers = [hideTimer State.init] ∧
    (ready false State.init).registrations = [] ∧
    listInFlight (ready true State.init) = 1 ∧
    (ready true State.init).timers =
      [{ id := 1, callback := Callback.handleResize, delay := 200, repeating := false },
       { id := 2, callback := Callback.checkIfRefreshNeeded, delay := 5000, repeating := true },
       { id := 3, callback := Callback.forceRefresh, delay := 60000, repeating := true }] := by
  decide

/-- C9, what the code does: a call of displayMessage with the message as its only
argument shows the message in cadetblue but arms no hide timer; it clears the
pending one and leaves `messageTimer` as it was, where the body written for the
one-argument form would have armed a timer of 5000 ms. -/
theorem displayMessage_one_argument_arms_no_timer (m : String) (s : State) :
    (displayMessage m none none s).notice
      = { innerText := m, backgroundColor := "cadetblue", display := "block" } ∧
    (displayMessage m none none s).timers = clearedTimers s ∧
    (displayMessage m none none s).nextTimerId = s.nextTimerId ∧
    (displayMessage m none none s).messageTimer = s.messageTimer ∧
    (displayMessageStandard m s).timers = clearedTimers s ++ [hideTimer s] ∧
    (displayMessageStandard m s).messageTimer = some s.nextTimerId := by
  obtain ⟨h1, h2, h3⟩ := displayMessage_unarmed m none none s (by decide)
  obtain ⟨k1, _, k3⟩ := displayMessage_armed m (some "cadetblue") s
  refine ⟨?_, h1, h2, h3, k1, k3⟩
  cases h : s.messageTimer <;> simp [displayMessage, clearTimeout, h]

/-- C10, what the code does: with an empty local storage makeMessageListResizable
adds no `message_list_height` entry, where the condition its comment describes
would add one; and when the storage holds a key named `false`, a stored
height is overwritten. -/
theorem makeMessageListResizable_adds_no_height :
    (makeMessageListResizable State.init).localStorage = some [] ∧
    (makeMessageListResizableAsCommented State.init).localStorage
      = some [("message_list_height", "200")] ∧
    (makeMessageListResizable exampleStored).localStorage
      = some [("message_list_height", "200"), ("false", "")] := by
  decide

/-- C12.  Handling a channel message, whatever its payload, leaves `loading` and the
requests in flight unchanged.  A message of type messageStatusesUpdated or
receivedNewMessage only sets shouldRefresh to true, and a message of type
updateMessageCount leaves shouldRefresh unchanged.  However many messages are
handled between two checkIfRefreshNeeded ticks, nothing is sent before the tick
and the tick sends at most one list fetch. -/
theorem channel_messages_start_no_fetch (P : Platform) (s : State) :
    (∀ data, (onmessage P data s).state.loading = s.loading ∧
      (onmessage P data s).state.requests = s.requests) ∧
    (∀ data message t, P.jsonParse data = Except.ok message →
      message.getProp "type" = some (JsValue.str t) →
      (t = "messageStatusesUpdated" ∨ t = "receivedNewMessage") →
      onmessage P data s = { state := { s with shouldRefresh := true }, threw := none }) ∧
    (∀ data message, P.jsonParse data = Except.ok message →
      message.getProp "type" = some (JsValue.str "updateMessageCount") →
      (onmessage P data s).state.shouldRefresh = s.shouldRefresh) ∧
    (∀ payloads : List String,
      (receiveAll P payloads s).loading = s.loading ∧
      (receiveAll P payloads s).requests = s.requests ∧
      ((checkIfRefreshNeeded (receiveAll P payloads s)).requests = s.requests ∨
       (checkIfRefreshNeeded (receiveAll P payloads s)).requests
         = s.requests ++ [listRequest s])) := by
  refine ⟨fun data => ⟨onmessage_loading P data s, onmessage_requests P data s⟩, ?_, ?_, ?_⟩
  · intro data message t hp ht htype
    rw [onmessage_of_type P data message t s hp ht]
    rcases htype with h | h
    · simp [h]
    · subst h
      simp
  · intro data message hp ht
    rw [onmessage_of_type P data message "updateMessageCount" s hp ht]
    simp only [String.reduceEq, if_false, if_true]
    split <;> rfl
  · intro payloads
    obtain ⟨h1, h2, h3⟩ := receiveAll_frame P payloads s
    refine ⟨h1, h2, ?_⟩
    rcases check_requests (receiveAll P payloads s) with h | h
    · exact Or.inl (h.trans h2)
    · exact Or.inr (by rw [h, h2, listRequest_congr s _ h3])

/-- C12, at an instance: the message announcing a new message, in the initial state. -/
theorem channel_messages_start_no_fetch_witness :
    examplePlatform.jsonParse "\x7b\"type\":\"receivedNewMessage\"\x7d"
      = Except.ok (JsValue.obj [("type", JsValue.str "receivedNewMessage")]) ∧
    (JsValue.obj [("type", JsValue.str "receivedNewMessage")]).getProp "type"
      = some (JsValue.str "receivedNewMessage") ∧
    onmessage examplePlatform "\x7b\"type\":\"receivedNewMessage\"\x7d" State.init
      = { state := { State.init with shouldRefresh := true }, threw := none } :=
  ⟨rfl, rfl,
    (channel_messages_start_no_fetch examplePlatform State.init).2.1
      "\x7b\"type\":\"receivedNewMessage\"\x7d"
      (JsValue.obj [("type", JsValue.str "receivedNewMessage")]) "receivedNewMessage"
      rfl rfl (Or.inr rfl)⟩

/-- C13, what the code does: the case `updateMessageCount` has no `break`, so after
setting the message count the handler runs into the default case and logs the
message to the console, as it does for a message without a condition. -/
theorem updateMessageCount_is_logged (P : Platform) (data text : String) (message : JsValue)
    (s : State) (hp : P.jsonParse data = Except.ok message)
    (ht : message.getProp "type" = some (JsValue.str "updateMessageCount"))
    (hm : callToLocaleString P (message.getProp "msg") = Except.ok text) :
    onmessage P data s =
      { state := { s with messageCount := text,
                          console := s.console ++ [ConsoleEntry.value message] },
        threw := none } := by
  rw [onmessage_of_type P data message "updateMessageCount" s hp ht, hm]
  simp

/-- C13, at an instance: the message count 5 arrives in the initial state. -/
theorem updateMessageCount_is_logged_witness :
    exampleCountPlatform.jsonParse "\x7b\"type\":\"updateMessageCount\",\"msg\":5\x7d"
      = Except.ok exampleCountMessage ∧
    exampleCountMessage.getProp "type" = some (JsValue.str "updateMessageCount") ∧
    callToLocaleString exampleCountPlatform (exampleCountMessage.getProp "msg") = Except.ok "5" ∧
    (onmessage exampleCountPlatform "\x7b\"type\":\"updateMessageCount\",\"msg\":5\x7d"
        State.init).state.console
      = [ConsoleEntry.value exampleCountMessage] :=
  ⟨rfl, rfl, rfl,
    congrArg (fun o => o.state.console)
      (updateMessageCount_is_logged exampleCountPlatform
        "\x7b\"type\":\"updateMessageCount\",\"msg\":5\x7d" "5" exampleCountMessage State.init
        rfl rfl rfl)⟩

end MailArchive
